import Mathlib

/-!
# BrainSlug Wii loader: the boot sequence of `src/main.c`

A shallow embedding of `main` and `Main_PrintSize`.  Every call that `main`
makes to code outside `main.c` is answered by an environment record
(`Env`) and recorded, in program order, in a trace of `Call`s.  The SD card
retry and the RESET button waits, which call the driver or the system at
every iteration, are run for at most `fuel` iterations each; a loop that is
still running then yields the outcome `Outcome.hang` together with the trace
produced so far.  The loop that waits for the reloaded IOS makes no call and
reads the status field through a pointer that is not `volatile`: the field is
read once, and the loop ends at once or never.
-/

namespace BrainSlug

/-! ## Main_PrintSize -/

/-- The conversion `sizef = size` of a `size_t` to a C `float` (IEEE-754
binary32, 24 significant bits, round to nearest, ties to even).  Values below
`2^24` are represented exactly. -/
def float_of_size (size : Nat) : ℚ :=
  if size < 2 ^ 24 then (size : ℚ)
  else
    let e := Nat.log2 size - 23
    let q := size / 2 ^ e
    let r := size % 2 ^ e
    let half := 2 ^ (e - 1)
    let q1 := if half < r ∨ (r = half ∧ q % 2 = 1) then q + 1 else q
    ((q1 * 2 ^ e : Nat) : ℚ)

/-- The loop `while (sizef > 512) { sizef /= 1024.0f; magnitude++; }`.
Dividing a binary32 value above 512 by 1024 is exact, so the quotient is the
rational quotient. -/
def scale (sizef : ℚ) (magnitude : Nat) : ℚ × Nat :=
  if 512 < sizef then scale (sizef / 1024) (magnitude + 1) else (sizef, magnitude)
termination_by Nat.floor sizef
decreasing_by
  have h2 : (0 : ℚ) ≤ sizef / 1024 := by positivity
  have h3 : ((Nat.floor (sizef / 1024) : Nat) : ℚ) ≤ sizef / 1024 := Nat.floor_le h2
  have h4 : sizef < (Nat.floor sizef : ℚ) + 1 := Nat.lt_floor_add_one sizef
  have h5 : ((Nat.floor (sizef / 1024) : Nat) : ℚ) < (Nat.floor sizef : ℚ) := by linarith
  exact_mod_cast h5

/-- The table `suffix[]`. -/
def suffix : List String := ["bytes", "KiB", "MiB", "GiB"]

/-- The arguments of the final `printf("%.*f %s", precision, sizef, suffix[magnitude])`. -/
structure SizeText where
  precision : Nat
  sizef : ℚ
  unit : String
  deriving DecidableEq

/-- The function `Main_PrintSize`; `none` is a failed `assert(magnitude < 4)`. -/
def Main_PrintSize (size : Nat) : Option SizeText :=
  let r := scale (float_of_size size) 0
  let sizef := r.1
  let magnitude := r.2
  if magnitude < 4 then
    let precision :=
      if magnitude = 0 then 0
      else if 100 ≤ sizef then 0
      else if 10 ≤ sizef then 1
      else 2
    some { precision := precision, sizef := sizef, unit := suffix.getD magnitude "" }
  else none

/-! ## The environment of main and the trace of its calls -/

/-- The event objects (`event_t`) that `main` waits on or triggers. -/
inductive Latch
  | main_event_fat_loaded
  | apploader_event_got_disc_id
  | apploader_event_got_ios
  | module_event_list_loaded
  | apploader_event_complete
  | module_event_complete
  deriving DecidableEq

/-- The texts written by `printf`, `fprintf(stderr, ..)` and `puts` in `main`. -/
inductive Msg
  | cursor_home
  | welcome
  | by_chadderz
  | waiting_for_disk
  | game_id_on_cios
  | no_hidv5
  | no_hidv4
  | game_id_reloading
  | reload_failed
  | trying_anyways
  | waiting
  | done
  | insert_sd
  | could_not_mount
  | loading_modules
  | no_valid_modules
  | modules_found (count : Nat) (plural : Bool)
  | module_line (module : Nat)
  | close_paren
  | total
  | press_reset_to_exit
  | entry_is_null
  | press_reset_to_launch
  deriving DecidableEq

/-- One call made by `main` to code outside it (or one read of the hardware
status field), with the arguments and results that matter for control flow. -/
inductive Call
  | memset (addr len : Nat)
  | SYS_SetArena1Hi (addr : Nat)
  | Event_Init
  | IOSApploader_Init
  | Apploader_Init
  | Module_Init
  | Search_Init
  | current_running_ios (value : Int)
  | LWP_SetThreadPriority
  | VIDEO_Init
  | VIDEO_GetPreferredMode
  | SYS_AllocateFramebuffer
  | console_init
  | VIDEO_Configure
  | VIDEO_SetNextFramebuffer
  | VIDEO_SetBlack (black : Bool)
  | VIDEO_Flush
  | VIDEO_WaitVSync
  | printf (m : Msg)
  | fprintf_stderr (m : Msg)
  | puts (m : Msg)
  | printf_size (t : SizeText)
  | assert_fail
  | IOSApploader_RunBackground
  | Event_Wait (l : Latch)
  | IOS_Open
  | IOS_Ioctl (request : Nat)
  | IOS_Close
  | Apploader_RunBackground (fooling : Int)
  | IOS_ReloadIOS (ios : Int)
  | poll_ios (value : Int)
  | Module_RunBackground
  | Search_RunBackground
  | sd_startup
  | sd_isInserted
  | sd_shutdown
  | fatMountSimple
  | Event_Trigger (l : Latch)
  | fatUnmount
  | SYS_ResetButtonDown (down : Bool)
  | SYS_ResetSystem
  | apploader_game_entry_fn (entry : Nat)
  | free (ptr : Nat)
  | exit (ret : Int)
  deriving DecidableEq

/-- The answers of everything outside `main.c` during one run of `main`. -/
structure Env where
  /-- Result of `Event_Init(&main_event_fat_loaded)`. -/
  Event_Init : Bool
  IOSApploader_Init : Bool
  Apploader_Init : Bool
  Module_Init : Bool
  Search_Init : Bool
  /-- The value of `*(short *)0x80003140` when it is copied to `current_running_ios`. -/
  running_ios : Int
  /-- The value of `MEM_K0_TO_K1(SYS_AllocateFramebuffer(rmode))`, 0 for `NULL`. -/
  frame_buffer : Nat
  /-- Whether `rmode->viTVMode & VI_NON_INTERLACE` is non-zero. -/
  non_interlace : Bool
  IOSApploader_RunBackground : Bool
  /-- The characters `os0->disc.gamename[i]`. -/
  gamename : Nat → Char
  _apploader_game_ios : Int
  /-- Result of `IOS_Open("/dev/usb/hid", 0)`. -/
  hid_fd : Int
  /-- Result of the `DEV_USB_HID4_IOCTL_GET_VERSION` ioctl. -/
  hid4_ver : Int
  /-- Result of the `DEV_USB_HID5_IOCTL_GET_VERSION` ioctl. -/
  hid5_ret : Int
  /-- The word `buffer[0]` after the `DEV_USB_HID5_IOCTL_GET_VERSION` ioctl. -/
  hid5_buffer0 : Int
  /-- Result of `Apploader_RunBackground(fooling)`. -/
  Apploader_RunBackground : Int → Bool
  /-- Result `rval` of `IOS_ReloadIOS(_apploader_game_ios)`. -/
  IOS_ReloadIOS : Int
  /-- The value that the hardware status field `*(short *)0x80003140` holds at
  the i-th moment (from 0) at which the loop that waits for the reloaded IOS
  tests its condition; the program reads it at moment 0 only. -/
  ios_status : Nat → Int
  Module_RunBackground : Bool
  Search_RunBackground : Bool
  /-- Result of the i-th call (from 0) of `__io_wiisd.startup()`. -/
  sd_startup : Nat → Bool
  /-- Result of `__io_wiisd.isInserted()` in the i-th attempt (from 0). -/
  sd_isInserted : Nat → Bool
  fatMountSimple : Bool
  module_list_count : Nat
  /-- The field `module_list[i]->size`. -/
  module_size : Nat → Nat
  module_list_size : Nat
  module_has_error : Bool
  /-- The pointer `apploader_game_entry_fn`, 0 for `NULL`. -/
  apploader_game_entry_fn : Nat
  module_has_info : Bool
  search_has_info : Bool
  /-- Result of the i-th call (from 0) of `SYS_ResetButtonDown()`. -/
  SYS_ResetButtonDown : Nat → Bool
  /-- Whether the call `apploader_game_entry_fn()` comes back to `main`. -/
  entry_returns : Bool

/-- How a stretch of `main` ends: it falls through to the next statement,
jumps to `exit_error`, is still inside an unbounded loop when the fuel is
used up, or stops in a failed `assert`. -/
inductive Ctl
  | next
  | exit_error
  | hang
  | abort
  deriving DecidableEq

/-- The calls made by a stretch of `main` and how it ends. -/
abbrev Phase := List Call × Ctl

/-- Sequential composition: the second stretch runs only if the first falls through. -/
def Phase.andThen (p q : Phase) : Phase :=
  match p.2 with
  | Ctl.next => (p.1 ++ q.1, q.2)
  | c => (p.1, c)

/-- Calls that always return. -/
def say (cs : List Call) : Phase := (cs, Ctl.next)

/-- The statement `if (!f()) goto exit_error;`, with `c` the call and `ok` its result. -/
def orFail (c : Call) (ok : Bool) : Phase :=
  ([c], if ok then Ctl.next else Ctl.exit_error)

/-- How a run of `main` ends. -/
inductive Outcome
  | exited (ret : Int)
  | handoff (entry : Nat)
  | hang
  | abort
  deriving DecidableEq

/-- A run of `main`: the calls it made, in order, and how it ended. -/
structure Run where
  trace : List Call
  outcome : Outcome
  deriving DecidableEq

/-- The run `r` preceded by the calls `cs`. -/
def Run.after (cs : List Call) (r : Run) : Run :=
  { trace := cs ++ r.trace, outcome := r.outcome }

/-! ## The function main, stretch by stretch -/

def DEV_USB_HID5_IOCTL_GET_VERSION : Nat := 0

def DEV_USB_HID4_IOCTL_GET_VERSION : Nat := 6

def DEV_USB_HID4_VERSION : Int := 0x00040001

def DEV_USB_HID5_VERSION : Int := 0x00050001

/-- Lines 56-64: clearing memory and lowering the arena. -/
def hardware_init : Phase :=
  say [Call.memset 0x80006000 0x9FA000, Call.memset 0x80c00000 0xD00000,
    Call.SYS_SetArena1Hi 0x81200000]

/-- Lines 66-76: "initialise all subsystems". -/
def init_subsystems (env : Env) : Phase :=
  (orFail Call.Event_Init env.Event_Init).andThen <|
  (orFail Call.IOSApploader_Init env.IOSApploader_Init).andThen <|
  (orFail Call.Apploader_Init env.Apploader_Init).andThen <|
  (orFail Call.Module_Init env.Module_Init).andThen <|
  orFail Call.Search_Init env.Search_Init

/-- Lines 78-114: thread priority, video set-up and the welcome message. -/
def configure_video (env : Env) : Phase :=
  (say [Call.current_running_ios env.running_ios, Call.LWP_SetThreadPriority,
    Call.VIDEO_Init, Call.VIDEO_GetPreferredMode]).andThen <|
  (orFail Call.SYS_AllocateFramebuffer (decide (env.frame_buffer ≠ 0))).andThen <|
  say ([Call.console_init, Call.VIDEO_Configure, Call.VIDEO_SetNextFramebuffer,
      Call.VIDEO_SetBlack false, Call.VIDEO_Flush, Call.VIDEO_WaitVSync]
    ++ (if env.non_interlace then [Call.VIDEO_WaitVSync] else [])
    ++ [Call.printf Msg.cursor_home, Call.printf Msg.welcome, Call.printf Msg.by_chadderz])

/-- Lines 116-122: the first worker and the wait for the disc identity. -/
def await_disc (env : Env) : Phase :=
  (orFail Call.IOSApploader_RunBackground env.IOSApploader_RunBackground).andThen <|
  say [Call.printf Msg.waiting_for_disk,
    Call.Event_Wait Latch.apploader_event_got_disc_id,
    Call.Event_Wait Latch.apploader_event_got_ios]

/-- Lines 125-154: the check of the USB HID version. -/
def hid_check (env : Env) : List Call :=
  Call.IOS_Open ::
  (if 0 < env.hid_fd then
    [Call.IOS_Ioctl DEV_USB_HID4_IOCTL_GET_VERSION]
    ++ (if env.gamename 0 = 'S' ∧ env.gamename 1 = 'W' ∧ env.gamename 2 = 'B' then
          (if env.hid4_ver = DEV_USB_HID4_VERSION then
            [Call.printf Msg.no_hidv5]
          else
            Call.IOS_Ioctl DEV_USB_HID5_IOCTL_GET_VERSION ::
            (if env.hid5_ret ≠ 0 ∨ env.hid5_buffer0 ≠ DEV_USB_HID5_VERSION then
              [Call.printf Msg.no_hidv5]
            else []))
        else
          (if env.hid4_ver ≠ DEV_USB_HID4_VERSION then [Call.printf Msg.no_hidv4] else []))
    ++ [Call.IOS_Close]
  else [])

/-- Line 175: `while (*(short *)0x80003140 != _apploader_game_ios);`.  The
pointer is not `volatile` and the loop has an empty body, so nothing that the
program does between two tests can change the object read: the field is read
once, after `IOS_ReloadIOS` has returned, and every test compares that value.
The loop ends at the first test or spins for ever. -/
def wait_ios (status : Nat → Int) (ios : Int) : Phase :=
  ([Call.poll_ios (status 0)], if status 0 ≠ ios then Ctl.hang else Ctl.next)

/-- Lines 123-181: with or without a reload of the IOS, start the apploader.
No loop of this stretch runs on fuel, `fuel` is taken for uniformity with the
later stretches. -/
def negotiate_ios (env : Env) (_fuel : Nat) : Phase :=
  if env._apploader_game_ios = 0 then
    (say (Call.printf Msg.game_id_on_cios :: hid_check env)).andThen <|
    orFail (Call.Apploader_RunBackground 1) (env.Apploader_RunBackground 1)
  else
    (say [Call.printf Msg.game_id_reloading,
      Call.IOS_ReloadIOS env._apploader_game_ios]).andThen <|
    if env.IOS_ReloadIOS < 0 then
      (say [Call.printf Msg.reload_failed, Call.printf Msg.trying_anyways]).andThen <|
      orFail (Call.Apploader_RunBackground 1) (env.Apploader_RunBackground 1)
    else
      (say [Call.printf Msg.waiting]).andThen <|
      (wait_ios env.ios_status env._apploader_game_ios).andThen <|
      (say [Call.printf Msg.done]).andThen <|
      orFail (Call.Apploader_RunBackground 0) (env.Apploader_RunBackground 0)

/-- Lines 183-187: "run the rest of the background threads". -/
def run_rest (env : Env) : Phase :=
  (orFail Call.Module_RunBackground env.Module_RunBackground).andThen <|
  orFail Call.Search_RunBackground env.Search_RunBackground

/-- The condition `!__io_wiisd.startup() || !__io_wiisd.isInserted()` in the
i-th attempt: the calls it makes and its value. -/
def sd_attempt (env : Env) (i : Nat) : List Call × Bool :=
  if env.sd_startup i then ([Call.sd_startup, Call.sd_isInserted], !env.sd_isInserted i)
  else ([Call.sd_startup], true)

/-- Lines 191-193: `do { shutdown(); } while (..)`, whose condition is attempt i. -/
def sd_retry (env : Env) : Nat → Nat → Phase
  | 0, _ => ([], Ctl.hang)
  | fuel + 1, i =>
    (say (Call.sd_shutdown :: (sd_attempt env i).1)).andThen <|
    if (sd_attempt env i).2 then sd_retry env fuel (i + 1) else say []

/-- Lines 189-195: wait for an SD card, then shut the driver down. -/
def sd_gate (env : Env) (fuel : Nat) : Phase :=
  (say (sd_attempt env 0).1).andThen <|
  (if (sd_attempt env 0).2 then
    (say [Call.printf Msg.insert_sd]).andThen (sd_retry env fuel 1)
  else say []).andThen <|
  say [Call.sd_shutdown]

/-- Lines 197-202: mount the card and trigger `main_event_fat_loaded`. -/
def mount_sd (env : Env) : Phase :=
  (say [Call.fatMountSimple]).andThen <|
  if env.fatMountSimple then say [Call.Event_Trigger Latch.main_event_fat_loaded]
  else ([Call.fprintf_stderr Msg.could_not_mount], Ctl.exit_error)

/-- A call `Main_PrintSize(size)` with a 32-bit `size_t`. -/
def print_size (size : Nat) : Phase :=
  match Main_PrintSize (size % 2 ^ 32) with
  | some t => say [Call.printf_size t]
  | none => ([Call.assert_fail], Ctl.abort)

/-- Lines 215-221: the loop over the modules still to be listed. -/
def list_modules (env : Env) : List Nat → Phase
  | [] => say []
  | module :: rest =>
    (say [Call.printf (Msg.module_line module)]).andThen <|
    (print_size (env.module_size module)).andThen <|
    (say [Call.puts Msg.close_paren]).andThen <|
    list_modules env rest

/-- Lines 204-225: wait for the module list and print it. -/
def show_modules (env : Env) : Phase :=
  (say [Call.printf Msg.loading_modules,
    Call.Event_Wait Latch.module_event_list_loaded]).andThen <|
  if env.module_list_count = 0 then say [Call.printf Msg.no_valid_modules]
  else
    (say [Call.printf
      (Msg.modules_found env.module_list_count (decide (1 < env.module_list_count)))]).andThen <|
    (list_modules env (List.range env.module_list_count)).andThen <|
    (print_size env.module_list_size).andThen <|
    say [Call.puts Msg.total]

/-- A loop `while (SYS_ResetButtonDown() == held) VIDEO_WaitVSync();` from the
i-th button read on; the result has the index of the next read, if the loop ends. -/
def wait_button (btn : Nat → Bool) (held : Bool) : Nat → Nat → List Call × Option Nat
  | 0, _ => ([], none)
  | fuel + 1, i =>
    if btn i = held then
      (Call.SYS_ResetButtonDown (btn i) :: Call.VIDEO_WaitVSync ::
        (wait_button btn held fuel (i + 1)).1, (wait_button btn held fuel (i + 1)).2)
    else ([Call.SYS_ResetButtonDown (btn i)], some (i + 1))

/-- The two loops `while (!SYS_ResetButtonDown()) ..; while (SYS_ResetButtonDown()) ..;`
(lines 243-246 and 258-261): RESET pressed, then released. -/
def wait_reset (btn : Nat → Bool) (fuel i : Nat) : List Call × Option Nat :=
  match wait_button btn false fuel i with
  | (cs, none) => (cs, none)
  | (cs, some j) => (cs ++ (wait_button btn true fuel j).1, (wait_button btn true fuel j).2)

/-- Lines 257-271, the label `exit`: wait for RESET, blank the screen, free the
frame buffer and `exit(ret)`. -/
def exit_label (env : Env) (fuel i frame_buffer : Nat) (ret : Int) : Run :=
  match wait_reset env.SYS_ResetButtonDown fuel i with
  | (cs, none) => { trace := cs, outcome := Outcome.hang }
  | (cs, some _) =>
    { trace := cs ++ [Call.VIDEO_SetBlack true, Call.VIDEO_Flush, Call.VIDEO_WaitVSync,
        Call.free frame_buffer, Call.exit ret],
      outcome := Outcome.exited ret }

/-- Lines 255-256, the label `exit_error`: `ret = -1`, then `exit`. -/
def exit_error (env : Env) (fuel frame_buffer : Nat) : Run :=
  exit_label env fuel 0 frame_buffer (-1)

/-- Lines 240-251: the optional pause, the reset of the hardware and the call
of the game's entry point; lines 253-254 if that call returns. -/
def launch (env : Env) (fuel : Nat) : Run :=
  let pause : List Call × Option Nat :=
    if env.module_has_info || env.search_has_info then
      (Call.printf Msg.press_reset_to_launch :: (wait_reset env.SYS_ResetButtonDown fuel 0).1,
        (wait_reset env.SYS_ResetButtonDown fuel 0).2)
    else ([], some 0)
  match pause with
  | (cs, none) => { trace := cs, outcome := Outcome.hang }
  | (cs, some i) =>
    Run.after (cs ++ [Call.SYS_ResetSystem,
        Call.apploader_game_entry_fn env.apploader_game_entry_fn]) <|
    if env.entry_returns then exit_label env fuel i env.frame_buffer 0
    else { trace := [], outcome := Outcome.handoff env.apploader_game_entry_fn }

/-- Lines 227-254: wait for the workers, unmount, then halt or launch. -/
def evaluate (env : Env) (fuel : Nat) : Run :=
  Run.after [Call.Event_Wait Latch.apploader_event_complete,
      Call.Event_Wait Latch.module_event_complete, Call.fatUnmount, Call.sd_shutdown] <|
  if env.module_has_error then
    Run.after [Call.printf Msg.press_reset_to_exit] (exit_error env fuel env.frame_buffer)
  else if env.apploader_game_entry_fn = 0 then
    Run.after [Call.fprintf_stderr Msg.entry_is_null] (exit_label env fuel 0 env.frame_buffer 0)
  else launch env fuel

/-- Lines 183-225: the remaining workers, the SD card and the module list. -/
def after_negotiation (env : Env) (fuel : Nat) : Phase :=
  (run_rest env).andThen <|
  (sd_gate env fuel).andThen <|
  (mount_sd env).andThen <|
  show_modules env

/-- Lines 78-225: from the video set-up to the printed module list. -/
def boot (env : Env) (fuel : Nat) : Phase :=
  (configure_video env).andThen <|
  (await_disc env).andThen <|
  (negotiate_ios env fuel).andThen <|
  after_negotiation env fuel

/-- The function `main`. -/
def main (env : Env) (fuel : Nat) : Run :=
  match hardware_init.andThen (init_subsystems env) with
  | (cs, Ctl.next) =>
    (match boot env fuel with
    | (cs2, Ctl.next) => Run.after (cs ++ cs2) (evaluate env fuel)
    | (cs2, Ctl.exit_error) => Run.after (cs ++ cs2) (exit_error env fuel env.frame_buffer)
    | (cs2, Ctl.hang) => { trace := cs ++ cs2, outcome := Outcome.hang }
    | (cs2, Ctl.abort) => { trace := cs ++ cs2, outcome := Outcome.abort })
  | (cs, _) => Run.after cs (exit_error env fuel 0)

/-! ## Classes of calls -/

/-- Calls that lines 56-122 (everything before the IOS is chosen) can make. -/
def early_calls : Call → Bool
  | Call.memset _ _ => true
  | Call.SYS_SetArena1Hi _ => true
  | Call.Event_Init => true
  | Call.IOSApploader_Init => true
  | Call.Apploader_Init => true
  | Call.Module_Init => true
  | Call.Search_Init => true
  | Call.current_running_ios _ => true
  | Call.LWP_SetThreadPriority => true
  | Call.VIDEO_Init => true
  | Call.VIDEO_GetPreferredMode => true
  | Call.SYS_AllocateFramebuffer => true
  | Call.console_init => true
  | Call.VIDEO_Configure => true
  | Call.VIDEO_SetNextFramebuffer => true
  | Call.VIDEO_SetBlack _ => true
  | Call.VIDEO_Flush => true
  | Call.VIDEO_WaitVSync => true
  | Call.printf Msg.cursor_home => true
  | Call.printf Msg.welcome => true
  | Call.printf Msg.by_chadderz => true
  | Call.printf Msg.waiting_for_disk => true
  | Call.IOSApploader_RunBackground => true
  | Call.Event_Wait _ => true
  | _ => false

/-- Calls that the USB HID check (lines 125-154) can make. -/
def hid_calls : Call → Bool
  | Call.IOS_Open => true
  | Call.IOS_Ioctl _ => true
  | Call.IOS_Close => true
  | Call.printf Msg.no_hidv5 => true
  | Call.printf Msg.no_hidv4 => true
  | _ => false

/-- Calls that lines 183-225 (workers, SD card, module list) can make. -/
def middle_calls : Call → Bool
  | Call.Module_RunBackground => true
  | Call.Search_RunBackground => true
  | Call.sd_startup => true
  | Call.sd_isInserted => true
  | Call.sd_shutdown => true
  | Call.fatMountSimple => true
  | Call.Event_Trigger _ => true
  | Call.Event_Wait _ => true
  | Call.printf Msg.insert_sd => true
  | Call.printf Msg.loading_modules => true
  | Call.printf Msg.no_valid_modules => true
  | Call.printf (Msg.modules_found _ _) => true
  | Call.printf (Msg.module_line _) => true
  | Call.fprintf_stderr Msg.could_not_mount => true
  | Call.puts _ => true
  | Call.printf_size _ => true
  | Call.assert_fail => true
  | _ => false

/-- Calls that lines 204-225 (waiting for the module list and printing it) can make. -/
def listing_calls : Call → Bool
  | Call.Event_Wait _ => true
  | Call.printf Msg.loading_modules => true
  | Call.printf Msg.no_valid_modules => true
  | Call.printf (Msg.modules_found _ _) => true
  | Call.printf (Msg.module_line _) => true
  | Call.puts _ => true
  | Call.printf_size _ => true
  | Call.assert_fail => true
  | _ => false

/-- Calls that lines 227-272 (the decision, the launch and the exit) can make. -/
def tail_calls : Call → Bool
  | Call.SYS_ResetButtonDown _ => true
  | Call.VIDEO_WaitVSync => true
  | Call.VIDEO_SetBlack _ => true
  | Call.VIDEO_Flush => true
  | Call.free _ => true
  | Call.exit _ => true
  | Call.Event_Wait _ => true
  | Call.fatUnmount => true
  | Call.sd_shutdown => true
  | Call.printf Msg.press_reset_to_exit => true
  | Call.printf Msg.press_reset_to_launch => true
  | Call.fprintf_stderr Msg.entry_is_null => true
  | Call.SYS_ResetSystem => true
  | Call.apploader_game_entry_fn _ => true
  | _ => false

/-- Calls that the labels `exit_error` and `exit` (lines 255-271) can make. -/
def exit_calls : Call → Bool
  | Call.SYS_ResetButtonDown _ => true
  | Call.VIDEO_WaitVSync => true
  | Call.VIDEO_SetBlack _ => true
  | Call.VIDEO_Flush => true
  | Call.free _ => true
  | Call.exit _ => true
  | _ => false

/-- The calls of the IOS negotiation: the reload, the reads of the status
field in the waiting loop and the start of the apploader. -/
def is_negotiation : Call → Bool
  | Call.IOS_ReloadIOS _ => true
  | Call.poll_ios _ => true
  | Call.Apploader_RunBackground _ => true
  | _ => false

/-- Whether a run gets as far as the choice of the IOS (line 123): the five
initialisations, the frame buffer and `IOSApploader_RunBackground` succeed. -/
def negotiation_reached (env : Env) : Bool :=
  env.Event_Init && env.IOSApploader_Init && env.Apploader_Init && env.Module_Init
    && env.Search_Init && decide (env.frame_buffer ≠ 0) && env.IOSApploader_RunBackground

/-- A run on a cIOS (`_apploader_game_ios` is 0) with a game "SWBE", whose HID
module answers the old version query with the HIDv5 value and fails the new one. -/
def env_cios : Env where
  Event_Init := true
  IOSApploader_Init := true
  Apploader_Init := true
  Module_Init := true
  Search_Init := true
  running_ios := 249
  frame_buffer := 0xC1000000
  non_interlace := false
  IOSApploader_RunBackground := true
  gamename := fun i => if i = 0 then 'S' else if i = 1 then 'W' else if i = 2 then 'B' else 'E'
  _apploader_game_ios := 0
  hid_fd := 3
  hid4_ver := 0x00050001
  hid5_ret := -1
  hid5_buffer0 := 0
  Apploader_RunBackground := fun _ => true
  IOS_ReloadIOS := 0
  ios_status := fun _ => 249
  Module_RunBackground := true
  Search_RunBackground := true
  sd_startup := fun _ => true
  sd_isInserted := fun _ => true
  fatMountSimple := true
  module_list_count := 0
  module_size := fun _ => 0
  module_list_size := 0
  module_has_error := false
  apploader_game_entry_fn := 0x80004000
  module_has_info := false
  search_has_info := false
  SYS_ResetButtonDown := fun i => decide (i = 1)
  entry_returns := false

/-- A run for a game that asks for IOS 56 while IOS 58 is running, where
`IOS_ReloadIOS(56)` fails. -/
def env_reload_fails : Env :=
  { env_cios with
    running_ios := 58
    _apploader_game_ios := 56
    IOS_ReloadIOS := -1017 }

/-- The five initialisation calls of lines 67-76, in their order. -/
def init_calls : List Call :=
  [Call.Event_Init, Call.IOSApploader_Init, Call.Apploader_Init, Call.Module_Init,
    Call.Search_Init]

/-- The results of the five initialisation calls, in the same order. -/
def init_results (env : Env) : List Bool :=
  [env.Event_Init, env.IOSApploader_Init, env.Apploader_Init, env.Module_Init, env.Search_Init]

/-- The calls that start background work. -/
def is_run_background : Call → Bool
  | Call.IOSApploader_RunBackground => true
  | Call.Apploader_RunBackground _ => true
  | Call.Module_RunBackground => true
  | Call.Search_RunBackground => true
  | _ => false

/-- The five initialisation calls. -/
def is_init : Call → Bool
  | Call.Event_Init => true
  | Call.IOSApploader_Init => true
  | Call.Apploader_Init => true
  | Call.Module_Init => true
  | Call.Search_Init => true
  | _ => false

/-- RESET is up until the p-th read of the button (from 0), down from then
until the q-th read, and up at the q-th read. -/
def reset_pressed_then_released (btn : Nat → Bool) (p q : Nat) : Prop :=
  p < q ∧ (∀ i, i < p → btn i = false) ∧ btn p = true
    ∧ (∀ i, i < q → p < i → btn i = true) ∧ btn q = false

/-- A run in which `Apploader_Init`, the third initialisation, fails. -/
def env_init_fails : Env :=
  { env_cios with Apploader_Init := false }

/-- The calls `cs`, made n times in a row. -/
def repeat_calls : Nat → List Call → List Call
  | 0, _ => []
  | n + 1, cs => cs ++ repeat_calls n cs

/-- The calls to the SD driver and the mount, and the triggering of an event. -/
def is_storage : Call → Bool
  | Call.sd_startup => true
  | Call.sd_isInserted => true
  | Call.sd_shutdown => true
  | Call.fatMountSimple => true
  | Call.Event_Trigger _ => true
  | _ => false

/-- The mount and the triggering of an event. -/
def is_mount_or_trigger : Call → Bool
  | Call.fatMountSimple => true
  | Call.Event_Trigger _ => true
  | _ => false

/-- Calls that the negotiation (lines 123-181) can make. -/
def negotiation_calls : Call → Bool
  | Call.IOS_Open => true
  | Call.IOS_Ioctl _ => true
  | Call.IOS_Close => true
  | Call.printf Msg.no_hidv5 => true
  | Call.printf Msg.no_hidv4 => true
  | Call.printf Msg.game_id_on_cios => true
  | Call.printf Msg.game_id_reloading => true
  | Call.printf Msg.reload_failed => true
  | Call.printf Msg.trying_anyways => true
  | Call.printf Msg.waiting => true
  | Call.printf Msg.done => true
  | Call.IOS_ReloadIOS _ => true
  | Call.poll_ios _ => true
  | Call.Apploader_RunBackground _ => true
  | _ => false

/-- Whether a run gets as far as the SD card (line 189): it reaches the
negotiation, gets through it and starts the two remaining workers. -/
def storage_reached (env : Env) (fuel : Nat) : Bool :=
  negotiation_reached env && decide ((negotiate_ios env fuel).2 = Ctl.next)
    && env.Module_RunBackground && env.Search_RunBackground

/-- A run in which the SD card is seen at the third attempt. -/
def env_sd_third : Env :=
  { env_cios with sd_isInserted := fun i => decide (2 ≤ i) }

/-- The calls of the USB HID check that matter: opening and closing the
device, the two version queries, the two advisory messages, and the start of
the apploader that follows. -/
def is_hid_probe : Call → Bool
  | Call.IOS_Open => true
  | Call.IOS_Ioctl _ => true
  | Call.IOS_Close => true
  | Call.printf Msg.no_hidv5 => true
  | Call.printf Msg.no_hidv4 => true
  | Call.Apploader_RunBackground _ => true
  | _ => false

/-- The run `env_cios` with a HID module that answers the old version query
with the HIDv4 value. -/
def env_cios_hid4 : Env :=
  { env_cios with hid4_ver := 0x00040001 }

/-- Whether a run gets as far as the module list (line 204): it reaches the SD
card, finds one and mounts it. -/
def module_phase_reached (env : Env) (fuel : Nat) : Bool :=
  storage_reached env fuel && decide ((sd_gate env fuel).2 = Ctl.next) && env.fatMountSimple

/-- The reset of the hardware and the call of the game's entry point. -/
def is_launch : Call → Bool
  | Call.SYS_ResetSystem => true
  | Call.apploader_game_entry_fn _ => true
  | _ => false

/-- The reset of the hardware, the call of the game's entry point and the
reads of the RESET button. -/
def is_launch_or_button : Call → Bool
  | Call.SYS_ResetSystem => true
  | Call.apploader_game_entry_fn _ => true
  | Call.SYS_ResetButtonDown _ => true
  | _ => false

/-- The run `env_cios` when the apploader found no entry point. -/
def env_entry_null : Env :=
  { env_cios with apploader_game_entry_fn := 0 }

/-- The run `env_cios` when a module failed to load. -/
def env_module_error : Env :=
  { env_cios with module_has_error := true }

/-- The reads of the RESET button and the call of `exit`. -/
def is_button_or_exit : Call → Bool
  | Call.SYS_ResetButtonDown _ => true
  | Call.exit _ => true
  | _ => false

/-! ## Structure of a run -/

@[simp] theorem say_fst (cs : List Call) : (say cs).1 = cs := rfl
@[simp] theorem say_snd (cs : List Call) : (say cs).2 = Ctl.next := rfl
@[simp] theorem orFail_fst (c : Call) (ok : Bool) : (orFail c ok).1 = [c] := rfl
@[simp] theorem orFail_snd (c : Call) (ok : Bool) :
    (orFail c ok).2 = if ok then Ctl.next else Ctl.exit_error := rfl

theorem andThen_fst (p q : Phase) :
    (p.andThen q).1 = p.1 ++ (if p.2 = Ctl.next then q.1 else []) := by
  unfold Phase.andThen
  cases h : p.2 <;> simp

theorem andThen_snd (p q : Phase) :
    (p.andThen q).2 = if p.2 = Ctl.next then q.2 else p.2 := by
  unfold Phase.andThen
  cases h : p.2 <;> simp

theorem main_trace (env : Env) (fuel : Nat) :
    (main env fuel).trace =
      hardware_init.1 ++ (init_subsystems env).1 ++
        (if (init_subsystems env).2 = Ctl.next then
          (boot env fuel).1 ++
            (if (boot env fuel).2 = Ctl.next then (evaluate env fuel).trace
             else if (boot env fuel).2 = Ctl.exit_error then
              (exit_error env fuel env.frame_buffer).trace
             else [])
         else (exit_error env fuel 0).trace) := by
  unfold main
  have h1 : (hardware_init.andThen (init_subsystems env)).1
      = hardware_init.1 ++ (init_subsystems env).1 := by
    simp [andThen_fst, hardware_init]
  have h2 : (hardware_init.andThen (init_subsystems env)).2 = (init_subsystems env).2 := by
    simp [andThen_snd, hardware_init]
  revert h1 h2
  generalize hardware_init.andThen (init_subsystems env) = p
  rcases p with ⟨cs, c⟩
  intro h1 h2
  simp only at h1 h2
  subst h1
  rw [← h2]
  cases c
  · simp only [if_true]
    generalize boot env fuel = b
    rcases b with ⟨cs2, c2⟩
    cases c2 <;> simp [Run.after]
  all_goals simp [Run.after]

theorem filter_andThen (f : Call → Bool) (p q : Phase) :
    (p.andThen q).1.filter f = p.1.filter f ++ (if p.2 = Ctl.next then q.1.filter f else []) := by
  rw [andThen_fst, List.filter_append]
  split <;> simp

theorem filter_wait_ios (f : Call → Bool) (h : ∀ v, f (Call.poll_ios v) = false)
    (status : Nat → Int) (ios : Int) :
    (wait_ios status ios).1.filter f = [] := by
  simp [wait_ios, List.filter_cons, h]

theorem filter_sd_retry (f : Call → Bool) (h1 : f Call.sd_shutdown = false)
    (h2 : f Call.sd_startup = false) (h3 : f Call.sd_isInserted = false)
    (env : Env) (fuel i : Nat) :
    (sd_retry env fuel i).1.filter f = [] := by
  induction fuel generalizing i with
  | zero => simp [sd_retry]
  | succ k ih =>
    unfold sd_retry
    simp only [filter_andThen, say_fst, say_snd, if_true]
    have : (sd_attempt env i).1.filter f = [] := by
      unfold sd_attempt
      split <;> simp [h2, h3]
    split <;> simp [h1, this, ih]

theorem filter_sd_gate (f : Call → Bool) (h1 : f Call.sd_shutdown = false)
    (h2 : f Call.sd_startup = false) (h3 : f Call.sd_isInserted = false)
    (h4 : f (Call.printf Msg.insert_sd) = false)
    (env : Env) (fuel : Nat) :
    (sd_gate env fuel).1.filter f = [] := by
  have : (sd_attempt env 0).1.filter f = [] := by
    unfold sd_attempt
    split <;> simp [h2, h3]
  unfold sd_gate
  simp only [filter_andThen, say_fst, say_snd, if_true, this]
  split <;> simp [h1, h4, filter_andThen, filter_sd_retry f h1 h2 h3]

theorem filter_wait_button (f : Call → Bool) (h1 : ∀ b, f (Call.SYS_ResetButtonDown b) = false)
    (h2 : f Call.VIDEO_WaitVSync = false) (btn : Nat → Bool) (held : Bool) (fuel i : Nat) :
    (wait_button btn held fuel i).1.filter f = [] := by
  induction fuel generalizing i with
  | zero => simp [wait_button]
  | succ k ih =>
    unfold wait_button
    split <;> simp [h1, h2, ih]

theorem filter_wait_reset (f : Call → Bool) (h1 : ∀ b, f (Call.SYS_ResetButtonDown b) = false)
    (h2 : f Call.VIDEO_WaitVSync = false) (btn : Nat → Bool) (fuel i : Nat) :
    (wait_reset btn fuel i).1.filter f = [] := by
  unfold wait_reset
  split
  · next cs h =>
    have := filter_wait_button f h1 h2 btn false fuel i
    rw [h] at this
    simpa using this
  · next cs j h =>
    have := filter_wait_button f h1 h2 btn false fuel i
    rw [h] at this
    simp only at this
    simp [this, filter_wait_button f h1 h2]

theorem filter_exit_label (f : Call → Bool) (h1 : ∀ b, f (Call.SYS_ResetButtonDown b) = false)
    (h2 : f Call.VIDEO_WaitVSync = false) (env : Env) (fuel i fb : Nat) (ret : Int) :
    (exit_label env fuel i fb ret).trace.filter f =
      if (wait_reset env.SYS_ResetButtonDown fuel i).2 = none then []
      else [Call.VIDEO_SetBlack true, Call.VIDEO_Flush, Call.free fb, Call.exit ret].filter f := by
  have := filter_wait_reset f h1 h2 env.SYS_ResetButtonDown fuel i
  unfold exit_label
  split
  · next cs h => rw [h] at this ⊢; simpa using this
  · next cs j h =>
    have t : cs.filter f = [] := by rw [h] at this; exact this
    simp only [h, List.filter_append, t]
    simp [List.filter_cons, h2]

theorem filter_print_size (f : Call → Bool) (h1 : ∀ t, f (Call.printf_size t) = false)
    (h2 : f Call.assert_fail = false) (size : Nat) :
    (print_size size).1.filter f = [] := by
  unfold print_size
  split <;> simp [h1, h2]

theorem filter_list_modules (f : Call → Bool)
    (hf : ∀ c, listing_calls c = true → f c = false) (env : Env) (ms : List Nat) :
    (list_modules env ms).1.filter f = [] := by
  induction ms with
  | nil => simp [list_modules]
  | cons m ms ih =>
    unfold list_modules
    simp [filter_andThen, ih, filter_print_size f (fun _ => hf _ rfl) (hf _ rfl),
      List.filter_cons, hf, listing_calls]

theorem filter_show_modules (f : Call → Bool)
    (hf : ∀ c, listing_calls c = true → f c = false) (env : Env) :
    (show_modules env).1.filter f = [] := by
  unfold show_modules
  simp only [filter_andThen, say_fst, say_snd, if_true]
  split <;> simp [filter_andThen, filter_print_size f (fun _ => hf _ rfl) (hf _ rfl),
    filter_list_modules f hf, List.filter_cons, hf, listing_calls]

theorem filter_exit_label_nil_of_exit (f : Call → Bool)
    (hf : ∀ c, exit_calls c = true → f c = false)
    (env : Env) (fuel i fb : Nat) (ret : Int) :
    (exit_label env fuel i fb ret).trace.filter f = [] := by
  rw [filter_exit_label f (fun b => hf _ rfl) (hf _ rfl)]
  split
  · rfl
  · simp [List.filter_cons, hf, exit_calls]

theorem exit_calls_tail (c : Call) (h : exit_calls c = true) : tail_calls c = true := by
  cases c <;> simp_all [exit_calls, tail_calls]

theorem filter_exit_label_nil (f : Call → Bool) (hf : ∀ c, tail_calls c = true → f c = false)
    (env : Env) (fuel i fb : Nat) (ret : Int) :
    (exit_label env fuel i fb ret).trace.filter f = [] :=
  filter_exit_label_nil_of_exit f (fun c hc => hf c (exit_calls_tail c hc)) env fuel i fb ret

theorem filter_launch_nil (f : Call → Bool) (hf : ∀ c, tail_calls c = true → f c = false)
    (env : Env) (fuel : Nat) :
    (launch env fuel).trace.filter f = [] := by
  have hw := filter_wait_reset f (fun b => hf _ rfl) (hf _ rfl) env.SYS_ResetButtonDown fuel 0
  have e1 := hf _ (rfl : tail_calls Call.SYS_ResetSystem = true)
  have e2 := hf _ (rfl : tail_calls (Call.apploader_game_entry_fn env.apploader_game_entry_fn) = true)
  have e3 := hf _ (rfl : tail_calls (Call.printf Msg.press_reset_to_launch) = true)
  unfold launch
  by_cases hi : (env.module_has_info || env.search_has_info) = true
  · simp only [hi, if_true]
    cases hr : (wait_reset env.SYS_ResetButtonDown fuel 0).2 with
    | none => simp [List.filter_cons, e3, hw]
    | some j =>
      by_cases hret : env.entry_returns = true
      · simp [hret, Run.after, List.filter_cons, e1, e2, e3, hw, filter_exit_label_nil f hf]
      · simp [hret, Run.after, List.filter_cons, e1, e2, e3, hw]
  · simp only [hi]
    by_cases hret : env.entry_returns = true
    · simp [hret, Run.after, List.filter_cons, e1, e2, filter_exit_label_nil f hf]
    · simp [hret, Run.after, List.filter_cons, e1, e2]

theorem filter_evaluate_nil (f : Call → Bool) (hf : ∀ c, tail_calls c = true → f c = false)
    (env : Env) (fuel : Nat) :
    (evaluate env fuel).trace.filter f = [] := by
  have e1 := hf _ (rfl : tail_calls (Call.Event_Wait Latch.apploader_event_complete) = true)
  have e2 := hf _ (rfl : tail_calls (Call.Event_Wait Latch.module_event_complete) = true)
  have e3 := hf _ (rfl : tail_calls Call.fatUnmount = true)
  have e4 := hf _ (rfl : tail_calls Call.sd_shutdown = true)
  have e5 := hf _ (rfl : tail_calls (Call.printf Msg.press_reset_to_exit) = true)
  have e6 := hf _ (rfl : tail_calls (Call.fprintf_stderr Msg.entry_is_null) = true)
  unfold evaluate exit_error
  split
  · simp [Run.after, List.filter_cons, e1, e2, e3, e4, e5, filter_exit_label_nil f hf]
  · split
    · simp [Run.after, List.filter_cons, e1, e2, e3, e4, e6, filter_exit_label_nil f hf]
    · simp [Run.after, List.filter_cons, e1, e2, e3, e4, filter_launch_nil f hf]


theorem main_outcome (env : Env) (fuel : Nat) :
    (main env fuel).outcome =
      if (init_subsystems env).2 = Ctl.next then
        (match (boot env fuel).2 with
        | Ctl.next => (evaluate env fuel).outcome
        | Ctl.exit_error => (exit_error env fuel env.frame_buffer).outcome
        | Ctl.hang => Outcome.hang
        | Ctl.abort => Outcome.abort)
      else (exit_error env fuel 0).outcome := by
  unfold main
  have h2 : (hardware_init.andThen (init_subsystems env)).2 = (init_subsystems env).2 := by
    simp [andThen_snd, hardware_init]
  revert h2
  generalize hardware_init.andThen (init_subsystems env) = p
  rcases p with ⟨cs, c⟩
  intro h2
  simp only at h2
  rw [← h2]
  cases c
  · simp only [if_true]
    generalize boot env fuel = b
    rcases b with ⟨cs2, c2⟩
    cases c2 <;> simp [Run.after]
  all_goals simp [Run.after]

theorem init_subsystems_next (env : Env) :
    (init_subsystems env).2 = Ctl.next ↔
      (env.Event_Init = true ∧ env.IOSApploader_Init = true ∧ env.Apploader_Init = true
        ∧ env.Module_Init = true ∧ env.Search_Init = true) := by
  unfold init_subsystems
  cases env.Event_Init <;> cases env.IOSApploader_Init <;> cases env.Apploader_Init <;>
    cases env.Module_Init <;> cases env.Search_Init <;> simp [andThen_snd]

theorem configure_video_next (env : Env) :
    (configure_video env).2 = Ctl.next ↔ env.frame_buffer ≠ 0 := by
  unfold configure_video
  by_cases h : env.frame_buffer = 0 <;> simp [andThen_snd, h]

theorem await_disc_next (env : Env) :
    (await_disc env).2 = Ctl.next ↔ env.IOSApploader_RunBackground = true := by
  unfold await_disc
  cases env.IOSApploader_RunBackground <;> simp [andThen_snd]

theorem filter_hardware_init_nil (f : Call → Bool) (hf : ∀ c, early_calls c = true → f c = false) :
    hardware_init.1.filter f = [] := by
  simp [hardware_init, List.filter_cons, hf, early_calls]

theorem filter_init_subsystems_nil (f : Call → Bool)
    (hf : ∀ c, early_calls c = true → f c = false) (env : Env) :
    (init_subsystems env).1.filter f = [] := by
  simp [init_subsystems, filter_andThen, List.filter_cons, hf, early_calls]

theorem filter_configure_video_nil (f : Call → Bool)
    (hf : ∀ c, early_calls c = true → f c = false) (env : Env) :
    (configure_video env).1.filter f = [] := by
  unfold configure_video
  cases env.non_interlace <;>
    simp [filter_andThen, List.filter_cons, hf, early_calls]

theorem filter_await_disc_nil (f : Call → Bool)
    (hf : ∀ c, early_calls c = true → f c = false) (env : Env) :
    (await_disc env).1.filter f = [] := by
  simp [await_disc, filter_andThen, List.filter_cons, hf, early_calls]

theorem filter_hid_check_nil (f : Call → Bool)
    (hf : ∀ c, hid_calls c = true → f c = false) (env : Env) :
    (hid_check env).filter f = [] := by
  unfold hid_check
  split_ifs <;> simp [List.filter_cons, hf, hid_calls]

theorem filter_run_rest_nil (f : Call → Bool)
    (hf : ∀ c, middle_calls c = true → f c = false) (env : Env) :
    (run_rest env).1.filter f = [] := by
  simp [run_rest, filter_andThen, List.filter_cons, hf, middle_calls]

theorem filter_mount_sd_nil (f : Call → Bool)
    (hf : ∀ c, middle_calls c = true → f c = false) (env : Env) :
    (mount_sd env).1.filter f = [] := by
  unfold mount_sd
  split_ifs <;> simp [filter_andThen, List.filter_cons, hf, middle_calls]

theorem listing_calls_middle (c : Call) (h : listing_calls c = true) :
    middle_calls c = true := by
  cases c <;> (try cases ‹Msg›) <;> simp_all [listing_calls, middle_calls]

/-- Lines 183-225 make no call outside `middle_calls`. -/
theorem filter_middle_nil (f : Call → Bool)
    (hf : ∀ c, middle_calls c = true → f c = false) (env : Env) (fuel : Nat) :
    (after_negotiation env fuel).1.filter f = [] := by
  simp [after_negotiation, filter_andThen, filter_run_rest_nil f hf, filter_mount_sd_nil f hf,
    filter_sd_gate f (hf _ rfl) (hf _ rfl) (hf _ rfl) (hf _ rfl),
    filter_show_modules f (fun c hc => hf c (listing_calls_middle c hc))]

/-! ## Main_PrintSize -/

theorem scale_spec (s : ℚ) (m : Nat) :
    ∃ k, scale s m = (s / 1024 ^ k, m + k) ∧ s / 1024 ^ k ≤ 512 ∧
      ∀ j, j < k → 512 < s / 1024 ^ j := by
  induction s, m using scale.induct with
  | case1 s m h ih =>
    obtain ⟨k, h1, h2, h3⟩ := ih
    refine ⟨k + 1, ?_, ?_, ?_⟩
    · rw [scale, if_pos h, h1, pow_succ', div_div]
      congr 1
      omega
    · rw [pow_succ', ← div_div]
      exact h2
    · intro j hj
      cases j with
      | zero => simpa using h
      | succ i =>
        rw [pow_succ', ← div_div]
        exact h3 i (by omega)
  | case2 s m h =>
    exact ⟨0, by rw [scale, if_neg h]; simp, by simpa using h, by intro j hj; omega⟩

theorem scale_magnitude_lt (s : ℚ) (hs : s ≤ 2 ^ 39) (k : Nat)
    (h : ∀ j, j < k → 512 < s / 1024 ^ j) : k < 4 := by
  by_contra hk
  have h3 := h 3 (by omega)
  rw [lt_div_iff₀ (by norm_num)] at h3
  norm_num at h3 hs
  linarith

theorem float_of_size_le (size : Nat) : float_of_size size ≤ 2 * (size : ℚ) := by
  unfold float_of_size
  split
  · have : (0 : ℚ) ≤ size := Nat.cast_nonneg size
    linarith
  · next h =>
    have hpos : size ≠ 0 := by
      intro h0
      rw [h0] at h
      norm_num at h
    have h1 : 2 ^ (Nat.log2 size - 23) ≤ size :=
      le_trans (Nat.pow_le_pow_right (by norm_num) (Nat.sub_le _ _)) (Nat.log2_self_le hpos)
    have h2 : size / 2 ^ (Nat.log2 size - 23) * 2 ^ (Nat.log2 size - 23) ≤ size :=
      Nat.div_mul_le_self _ _
    have h3 : (if 2 ^ (Nat.log2 size - 23 - 1) < size % 2 ^ (Nat.log2 size - 23) ∨
          size % 2 ^ (Nat.log2 size - 23) = 2 ^ (Nat.log2 size - 23 - 1) ∧
            size / 2 ^ (Nat.log2 size - 23) % 2 = 1
        then size / 2 ^ (Nat.log2 size - 23) + 1 else size / 2 ^ (Nat.log2 size - 23))
        * 2 ^ (Nat.log2 size - 23) ≤ 2 * size := by
      split
      · rw [Nat.add_mul]
        omega
      · omega
    simp only
    exact_mod_cast h3

/-- For a 32-bit size the `assert` of `Main_PrintSize` holds. -/
theorem Main_PrintSize_isSome (size : Nat) (h : size < 2 ^ 32) :
    ∃ t, Main_PrintSize size = some t := by
  obtain ⟨k, h1, _, h3⟩ := scale_spec (float_of_size size) 0
  have hle : float_of_size size ≤ 2 ^ 39 := by
    have := float_of_size_le size
    have h' : (size : ℚ) < 4294967296 := by exact_mod_cast h
    norm_num
    linarith
  have hk := scale_magnitude_lt _ hle k h3
  unfold Main_PrintSize
  simp only [h1, Nat.zero_add, hk, if_true]
  exact ⟨_, rfl⟩

theorem print_size_next (size : Nat) : (print_size size).2 = Ctl.next := by
  obtain ⟨t, ht⟩ := Main_PrintSize_isSome (size % 2 ^ 32) (Nat.mod_lt _ (by norm_num))
  unfold print_size
  rw [ht]
  rfl

theorem list_modules_next (env : Env) (ms : List Nat) : (list_modules env ms).2 = Ctl.next := by
  induction ms with
  | nil => simp [list_modules]
  | cons m ms ih => simp [list_modules, andThen_snd, print_size_next, ih]

/-- Waiting for the module list and printing it always falls through. -/
theorem show_modules_next (env : Env) : (show_modules env).2 = Ctl.next := by
  unfold show_modules
  split <;> simp [andThen_snd, print_size_next, list_modules_next]

/-! ## Runs that get to the end of the module list -/

theorem run_ext (r s : Run) (h1 : r.trace = s.trace) (h2 : r.outcome = s.outcome) : r = s := by
  cases r
  cases s
  simp_all

theorem main_eq_of_next (env : Env) (fuel : Nat) (h1 : (init_subsystems env).2 = Ctl.next)
    (h2 : (boot env fuel).2 = Ctl.next) :
    main env fuel =
      Run.after (hardware_init.1 ++ (init_subsystems env).1 ++ (boot env fuel).1)
        (evaluate env fuel) := by
  apply run_ext
  · rw [main_trace]
    simp [h1, h2, Run.after]
  · rw [main_outcome]
    simp [h1, h2, Run.after]

theorem filter_negotiate_ios_nil (f : Call → Bool)
    (hf : ∀ c, negotiation_calls c = true → f c = false) (env : Env) (fuel : Nat) :
    (negotiate_ios env fuel).1.filter f = [] := by
  have hh : (hid_check env).filter f = [] := by
    unfold hid_check
    split_ifs <;> simp [List.filter_cons, hf, negotiation_calls, DEV_USB_HID4_IOCTL_GET_VERSION,
      DEV_USB_HID5_IOCTL_GET_VERSION]
  have hw := filter_wait_ios f (fun v => hf _ rfl) env.ios_status env._apploader_game_ios
  unfold negotiate_ios
  split_ifs <;>
    simp [filter_andThen, List.filter_cons, hf, negotiation_calls, hh, hw]

theorem filter_boot_nil (f : Call → Bool)
    (he : ∀ c, early_calls c = true → f c = false)
    (hn : ∀ c, negotiation_calls c = true → f c = false)
    (hm : ∀ c, middle_calls c = true → f c = false) (env : Env) (fuel : Nat) :
    (boot env fuel).1.filter f = [] := by
  simp [boot, filter_andThen, filter_configure_video_nil f he, filter_await_disc_nil f he,
    filter_negotiate_ios_nil f hn, filter_middle_nil f hm]

/-- A class of calls made only after the module list is seen in a run only
through lines 227-254, and only if the run gets that far. -/
theorem filter_main_evaluate (f : Call → Bool)
    (he : ∀ c, early_calls c = true → f c = false)
    (hn : ∀ c, negotiation_calls c = true → f c = false)
    (hm : ∀ c, middle_calls c = true → f c = false)
    (hx : ∀ c, exit_calls c = true → f c = false) (env : Env) (fuel : Nat) :
    (main env fuel).trace.filter f =
      if (init_subsystems env).2 = Ctl.next ∧ (boot env fuel).2 = Ctl.next then
        (evaluate env fuel).trace.filter f
      else [] := by
  rw [main_trace]
  simp only [List.filter_append, apply_ite (List.filter f), exit_error,
    filter_exit_label_nil_of_exit f hx, filter_hardware_init_nil f he,
    filter_init_subsystems_nil f he, filter_boot_nil f he hn hm]
  by_cases h1 : (init_subsystems env).2 = Ctl.next <;>
    by_cases h2 : (boot env fuel).2 = Ctl.next <;> simp [h1, h2]
/-! ## The negotiation of the IOS -/

theorem negotiation_reached_iff (env : Env) :
    negotiation_reached env = true ↔
      ((init_subsystems env).2 = Ctl.next ∧ (configure_video env).2 = Ctl.next
        ∧ (await_disc env).2 = Ctl.next) := by
  rw [init_subsystems_next, configure_video_next, await_disc_next]
  simp [negotiation_reached, and_assoc]

/-- A class of calls made neither before nor after the negotiation is seen
in a run only through the negotiation, and only if the run gets that far. -/
theorem filter_main_negotiation (f : Call → Bool)
    (he : ∀ c, early_calls c = true → f c = false)
    (hm : ∀ c, middle_calls c = true → f c = false)
    (ht : ∀ c, tail_calls c = true → f c = false) (env : Env) (fuel : Nat) :
    (main env fuel).trace.filter f =
      if negotiation_reached env = true then (negotiate_ios env fuel).1.filter f else [] := by
  rw [main_trace]
  simp only [List.filter_append, apply_ite (List.filter f), exit_error,
    filter_exit_label_nil f ht,
    filter_evaluate_nil f ht, filter_hardware_init_nil f he, filter_init_subsystems_nil f he,
    boot, filter_andThen, filter_configure_video_nil f he, filter_await_disc_nil f he,
    filter_middle_nil f hm, negotiation_reached_iff]
  by_cases h1 : (init_subsystems env).2 = Ctl.next <;>
    by_cases h2 : (configure_video env).2 = Ctl.next <;>
    by_cases h3 : (await_disc env).2 = Ctl.next <;> simp [h1, h2, h3]

theorem early_not_negotiation (c : Call) (h : early_calls c = true) :
    is_negotiation c = false := by
  cases c <;> (try cases ‹Msg›) <;> simp_all [early_calls, is_negotiation]

theorem middle_not_negotiation (c : Call) (h : middle_calls c = true) :
    is_negotiation c = false := by
  cases c <;> (try cases ‹Msg›) <;> simp_all [middle_calls, is_negotiation]

theorem tail_not_negotiation (c : Call) (h : tail_calls c = true) :
    is_negotiation c = false := by
  cases c <;> (try cases ‹Msg›) <;> simp_all [tail_calls, is_negotiation]

theorem hid_not_negotiation (c : Call) (h : hid_calls c = true) :
    is_negotiation c = false := by
  cases c <;> (try cases ‹Msg›) <;> simp_all [hid_calls, is_negotiation]

/-- C1 (as the code has it): when `_apploader_game_ios` is 0, the only call of
the negotiation that a run makes is `Apploader_RunBackground(1)`, made once
if the run gets as far as line 123: there is no `IOS_ReloadIOS`, no read of
the status field in the waiting loop and no `Apploader_RunBackground(0)`. -/
theorem C1_no_preference_starts_apploader_with_1 (env : Env) (fuel : Nat)
    (h0 : env._apploader_game_ios = 0) :
    (main env fuel).trace.filter is_negotiation =
      if negotiation_reached env = true then [Call.Apploader_RunBackground 1] else [] := by
  rw [filter_main_negotiation is_negotiation early_not_negotiation middle_not_negotiation
    tail_not_negotiation]
  simp [negotiate_ios, h0, filter_andThen, List.filter_cons, is_negotiation,
    filter_hid_check_nil is_negotiation hid_not_negotiation]

/-- The run `env_cios` as an instance of C1. -/
theorem C1_no_preference_witness :
    env_cios._apploader_game_ios = 0 ∧
    (main env_cios 3).trace.filter is_negotiation =
      if negotiation_reached env_cios = true then [Call.Apploader_RunBackground 1] else [] :=
  ⟨rfl, C1_no_preference_starts_apploader_with_1 env_cios 3 rfl⟩

/-- C1 as stated fails: in a run where every initialisation succeeds and
`_apploader_game_ios` is 0, `Apploader_RunBackground` is given 1, not 0. -/
theorem C1_counterexample :
    negotiation_reached env_cios = true ∧ env_cios._apploader_game_ios = 0 ∧
    Call.Apploader_RunBackground 1 ∈ (main env_cios 3).trace ∧
    Call.Apploader_RunBackground 0 ∉ (main env_cios 3).trace := by
  decide


theorem after_negotiation_fst (env : Env) (fuel : Nat) :
    ∃ rest, (after_negotiation env fuel).1 = Call.Module_RunBackground :: rest := by
  simp [after_negotiation, run_rest, andThen_fst]

/-- A run that gets through the negotiation goes on with `Module_RunBackground`. -/
theorem main_trace_after_negotiation (env : Env) (fuel : Nat)
    (hreach : negotiation_reached env = true) (hneg : (negotiate_ios env fuel).2 = Ctl.next) :
    ∃ rest, (main env fuel).trace =
      hardware_init.1 ++ (init_subsystems env).1 ++ (configure_video env).1 ++ (await_disc env).1
        ++ (negotiate_ios env fuel).1 ++ Call.Module_RunBackground :: rest := by
  obtain ⟨h1, h2, h3⟩ := (negotiation_reached_iff env).1 hreach
  obtain ⟨r, hr⟩ := after_negotiation_fst env fuel
  rw [main_trace]
  simp only [boot, andThen_fst, h1, h2, h3, hneg, if_true, hr]
  exact ⟨_, by simp only [List.append_assoc, List.cons_append]; rfl⟩

/-- C5: when `_apploader_game_ios` is X, not 0, and `IOS_ReloadIOS(X)` returns a
negative value, the waiting loop is not entered: the calls of the negotiation
are the reload and then `Apploader_RunBackground(1)`, with no read of the
status field; and if that start succeeds the run goes on with the first of
the remaining workers, `Module_RunBackground`, rather than to `exit_error`. -/
theorem C5_reload_failure_degrades (env : Env) (fuel : Nat)
    (hX : env._apploader_game_ios ≠ 0) (hr : env.IOS_ReloadIOS < 0) :
    ((main env fuel).trace.filter is_negotiation =
      if negotiation_reached env = true then
        [Call.IOS_ReloadIOS env._apploader_game_ios, Call.Apploader_RunBackground 1]
      else []) ∧
    (negotiation_reached env = true → env.Apploader_RunBackground 1 = true →
      ∃ rest, (main env fuel).trace =
        hardware_init.1 ++ (init_subsystems env).1 ++ (configure_video env).1
          ++ (await_disc env).1
          ++ [Call.printf Msg.game_id_reloading, Call.IOS_ReloadIOS env._apploader_game_ios,
              Call.printf Msg.reload_failed, Call.printf Msg.trying_anyways,
              Call.Apploader_RunBackground 1, Call.Module_RunBackground]
          ++ rest) := by
  have hneg : negotiate_ios env fuel =
      ([Call.printf Msg.game_id_reloading, Call.IOS_ReloadIOS env._apploader_game_ios,
        Call.printf Msg.reload_failed, Call.printf Msg.trying_anyways,
        Call.Apploader_RunBackground 1],
       if env.Apploader_RunBackground 1 = true then Ctl.next else Ctl.exit_error) := by
    simp [negotiate_ios, hX, hr, Phase.andThen, say, orFail]
  constructor
  · rw [filter_main_negotiation is_negotiation early_not_negotiation middle_not_negotiation
      tail_not_negotiation, hneg]
    simp [List.filter_cons, is_negotiation]
  · intro hreach hstart
    obtain ⟨rest, h⟩ := main_trace_after_negotiation env fuel hreach (by simp [hneg, hstart])
    exact ⟨rest, by rw [h, hneg]; simp⟩

/-- The run `env_reload_fails` as an instance of C5. -/
theorem C5_reload_failure_witness :
    env_reload_fails._apploader_game_ios ≠ 0 ∧ env_reload_fails.IOS_ReloadIOS < 0 ∧
    ((main env_reload_fails 3).trace.filter is_negotiation =
      if negotiation_reached env_reload_fails = true then
        [Call.IOS_ReloadIOS env_reload_fails._apploader_game_ios, Call.Apploader_RunBackground 1]
      else []) :=
  ⟨by decide, by decide,
    (C5_reload_failure_degrades env_reload_fails 3 (by decide) (by decide)).1⟩

theorem wait_button_some (btn : Nat → Bool) (held : Bool) (n fuel s : Nat)
    (h : ∀ i, i < n → btn (s + i) = held) (hn : btn (s + n) ≠ held) (hf : n < fuel) :
    (wait_button btn held fuel s).2 = some (s + n + 1) := by
  induction fuel generalizing s n with
  | zero => omega
  | succ k ih =>
    unfold wait_button
    cases n with
    | zero =>
      have h0 : btn s ≠ held := by simpa using hn
      simp [h0]
    | succ m =>
      have h0 : btn s = held := by simpa using h 0 (Nat.succ_pos m)
      have hk : ∀ i, i < m → btn (s + 1 + i) = held := by
        intro i hi
        have := h (i + 1) (Nat.succ_lt_succ hi)
        rwa [show s + (i + 1) = s + 1 + i by omega] at this
      have hm : btn (s + 1 + m) ≠ held := by
        rwa [show s + (m + 1) = s + 1 + m by omega] at hn
      rw [if_pos h0]
      simp only
      rw [ih m (s + 1) hk hm (by omega)]
      congr 1
      omega

theorem wait_reset_some (btn : Nat → Bool) (p q fuel : Nat)
    (h : reset_pressed_then_released btn p q) (hf : q < fuel) :
    (wait_reset btn fuel 0).2 = some (q + 1) := by
  obtain ⟨hpq, h1, h2, h3, h4⟩ := h
  have e1 := wait_button_some btn false p fuel 0 (by simpa using h1) (by simp [h2]) (by omega)
  have e2 := wait_button_some btn true (q - (p + 1)) fuel (p + 1)
    (fun i hi => h3 _ (by omega) (by omega))
    (by rw [show p + 1 + (q - (p + 1)) = q by omega]; simp [h4]) (by omega)
  unfold wait_reset
  split
  · next cs hc => rw [hc] at e1; simp at e1
  · next cs j hc =>
    rw [hc] at e1
    simp only [Nat.zero_add, Option.some.injEq] at e1
    subst e1
    simp only [e2]
    congr 1
    omega

theorem exit_label_outcome (env : Env) (fuel i fb : Nat) (ret : Int) :
    (exit_label env fuel i fb ret).outcome =
      if (wait_reset env.SYS_ResetButtonDown fuel i).2 = none then Outcome.hang
      else Outcome.exited ret := by
  unfold exit_label
  split <;> next h => simp [h]

theorem exit_label_exits (env : Env) (fuel fb p q : Nat) (ret : Int)
    (h : reset_pressed_then_released env.SYS_ResetButtonDown p q) (hf : q < fuel) :
    (exit_label env fuel 0 fb ret).outcome = Outcome.exited ret := by
  rw [exit_label_outcome, wait_reset_some _ p q fuel h hf]
  simp

/-! ## Initialisation -/

theorem early_not_run_background_of_init (c : Call) (h : c ∈ hardware_init.1 ++ init_calls) :
    is_run_background c = false := by
  simp [hardware_init, init_calls] at h
  rcases h with h | h | h | h | h | h | h | h <;> subst h <;> rfl

theorem tail_not_run_background (c : Call) (h : tail_calls c = true) :
    is_run_background c = false := by
  cases c <;> (try cases ‹Msg›) <;> simp_all [tail_calls, is_run_background]

theorem tail_not_init (c : Call) (h : tail_calls c = true) : is_init c = false := by
  cases c <;> (try cases ‹Msg›) <;> simp_all [tail_calls, is_init]

theorem init_subsystems_fst_of_next (env : Env) (h : (init_subsystems env).2 = Ctl.next) :
    (init_subsystems env).1 = init_calls := by
  obtain ⟨h1, h2, h3, h4, h5⟩ := (init_subsystems_next env).1 h
  simp [init_subsystems, andThen_fst, h1, h2, h3, h4, h5, init_calls]

/-- A run in which the k-th initialisation (from 0) is the first to fail. -/
theorem main_of_init_failure (env : Env) (fuel k : Nat) (hk : k < 5)
    (hfail : (init_results env).getD k true = false)
    (hok : ∀ j, j < k → (init_results env).getD j false = true) :
    main env fuel =
      Run.after (hardware_init.1 ++ init_calls.take (k + 1)) (exit_error env fuel 0) := by
  have h0 := hok 0
  have h1 := hok 1
  have h2 := hok 2
  have h3 := hok 3
  interval_cases k <;>
    simp [init_results] at hfail h0 h1 h2 h3 <;>
    simp [main, hardware_init, init_subsystems, Phase.andThen, say, orFail, init_calls,
      Run.after, hfail, h0, h1, h2, h3]

/-- C7: if the k-th of the five initialisation calls (counted from 0, in the
order of lines 67-76) is the first to return false, then the run makes the
initialisation calls up to that one and no other, makes no `RunBackground`
call, and goes to `exit_error`: it waits for RESET and, once RESET was pressed
and released, exits with status -1.  Consequently a run that contains any
`RunBackground` call has all five results true, and the five initialisation
calls come before that call. -/
theorem C7_fail_fast_initialisation (env : Env) (fuel k : Nat) (hk : k < 5)
    (hfail : (init_results env).getD k true = false)
    (hok : ∀ j, j < k → (init_results env).getD j false = true) :
    (main env fuel).trace.filter is_init = init_calls.take (k + 1) ∧
    (main env fuel).trace.filter is_run_background = [] ∧
    main env fuel =
      Run.after (hardware_init.1 ++ init_calls.take (k + 1)) (exit_error env fuel 0) ∧
    ((main env fuel).outcome = Outcome.exited (-1) ∨ (main env fuel).outcome = Outcome.hang) ∧
    (∀ p q, reset_pressed_then_released env.SYS_ResetButtonDown p q → q < fuel →
      (main env fuel).outcome = Outcome.exited (-1)) ∧
    (∀ env2 fuel2 c, c ∈ (main env2 fuel2).trace → is_run_background c = true →
      (∀ b ∈ init_results env2, b = true) ∧
      ∃ rest, (main env2 fuel2).trace = hardware_init.1 ++ init_calls ++ rest ∧ c ∈ rest) := by
  have hmain := main_of_init_failure env fuel k hk hfail hok
  refine ⟨?_, ?_, hmain, ?_, ?_, ?_⟩
  · rw [hmain]
    simp only [Run.after, exit_error, List.filter_append,
      filter_exit_label_nil is_init tail_not_init, List.append_nil]
    interval_cases k <;> simp [hardware_init, init_calls, List.filter_cons, is_init]
  · rw [hmain]
    simp only [Run.after, exit_error, List.filter_append,
      filter_exit_label_nil is_run_background tail_not_run_background, List.append_nil]
    interval_cases k <;> simp [hardware_init, init_calls, List.filter_cons, is_run_background]
  · rw [hmain]
    simp only [Run.after, exit_error, exit_label_outcome]
    split <;> simp
  · intro p q hpq hq
    rw [hmain]
    simp only [Run.after, exit_error]
    exact exit_label_exits env fuel 0 p q (-1) hpq hq
  · intro env2 fuel2 c hc hrb
    by_cases hn : (init_subsystems env2).2 = Ctl.next
    · obtain ⟨h1, h2, h3, h4, h5⟩ := (init_subsystems_next env2).1 hn
      refine ⟨by simp [init_results, h1, h2, h3, h4, h5], ?_⟩
      have ht := main_trace env2 fuel2
      rw [if_pos hn, init_subsystems_fst_of_next env2 hn] at ht
      refine ⟨_, ht, ?_⟩
      rw [ht] at hc
      rcases List.mem_append.1 hc with hc | hc
      · rw [early_not_run_background_of_init c hc] at hrb
        cases hrb
      · exact hc
    · exfalso
      have ht := main_trace env2 fuel2
      rw [if_neg hn] at ht
      have hnil : (main env2 fuel2).trace.filter is_run_background = [] := by
        rw [ht]
        simp only [List.filter_append, exit_error,
          filter_exit_label_nil is_run_background tail_not_run_background]
        simp [hardware_init, init_subsystems, filter_andThen, List.filter_cons,
          is_run_background]
      have : c ∈ (main env2 fuel2).trace.filter is_run_background :=
        List.mem_filter.2 ⟨hc, hrb⟩
      rw [hnil] at this
      cases this

/-- The run `env_init_fails`, where the third initialisation fails, as an instance of C7. -/
theorem C7_fail_fast_witness :
    (init_results env_init_fails).getD 2 true = false ∧
    (∀ j, j < 2 → (init_results env_init_fails).getD j false = true) ∧
    (main env_init_fails 3).trace.filter is_init
      = [Call.Event_Init, Call.IOSApploader_Init, Call.Apploader_Init] ∧
    (main env_init_fails 3).trace.filter is_run_background = [] ∧
    (main env_init_fails 3).outcome = Outcome.exited (-1) :=
  have h := C7_fail_fast_initialisation env_init_fails 3 2 (by decide) (by decide) (by decide)
  ⟨by decide, by decide, h.1, h.2.1,
    h.2.2.2.2.1 1 2 (by unfold reset_pressed_then_released; decide) (by decide)⟩

/-! ## The SD card -/

theorem sd_retry_done (env : Env) (n fuel s : Nat)
    (h1 : ∀ i, i < n + 1 → env.sd_startup (s + i) = true)
    (h2 : ∀ i, i < n → env.sd_isInserted (s + i) = false)
    (h3 : env.sd_isInserted (s + n) = true) (hf : n < fuel) :
    sd_retry env fuel s =
      (repeat_calls (n + 1) [Call.sd_shutdown, Call.sd_startup, Call.sd_isInserted],
        Ctl.next) := by
  induction fuel generalizing s n with
  | zero => omega
  | succ k ih =>
    unfold sd_retry
    have hs : env.sd_startup s = true := by simpa using h1 0 (Nat.succ_pos n)
    cases n with
    | zero =>
      have hi : env.sd_isInserted s = true := by simpa using h3
      simp [sd_attempt, hs, hi, Phase.andThen, say, repeat_calls]
    | succ m =>
      have hi : env.sd_isInserted s = false := by simpa using h2 0 (Nat.succ_pos m)
      have e := ih m (s + 1)
        (fun i hi => by
          have := h1 (i + 1) (by omega)
          rwa [show s + (i + 1) = s + 1 + i by omega] at this)
        (fun i hi => by
          have := h2 (i + 1) (by omega)
          rwa [show s + (i + 1) = s + 1 + i by omega] at this)
        (by rwa [show s + (m + 1) = s + 1 + m by omega] at h3) (by omega)
      simp [sd_attempt, hs, hi, Phase.andThen, say, e, repeat_calls]

theorem repeat_calls_rotate (m : Nat) :
    [Call.sd_startup, Call.sd_isInserted]
        ++ repeat_calls m [Call.sd_shutdown, Call.sd_startup, Call.sd_isInserted]
        ++ [Call.sd_shutdown]
      = repeat_calls (m + 1) [Call.sd_startup, Call.sd_isInserted, Call.sd_shutdown] := by
  induction m with
  | zero => simp [repeat_calls]
  | succ m ih =>
    have e : repeat_calls (m + 1 + 1) [Call.sd_startup, Call.sd_isInserted, Call.sd_shutdown]
        = [Call.sd_startup, Call.sd_isInserted, Call.sd_shutdown]
          ++ repeat_calls (m + 1) [Call.sd_startup, Call.sd_isInserted, Call.sd_shutdown] := rfl
    rw [e, ← ih]
    simp [repeat_calls]

theorem filter_repeat_calls (f : Call → Bool) (cs : List Call) (h : cs.filter f = cs) (n : Nat) :
    (repeat_calls n cs).filter f = repeat_calls n cs := by
  induction n with
  | zero => simp [repeat_calls]
  | succ n ih => simp [repeat_calls, List.filter_append, h, ih]

theorem count_repeat_calls (c : Call) (cs : List Call) (n : Nat) :
    (repeat_calls n cs).count c = n * cs.count c := by
  induction n with
  | zero => simp [repeat_calls]
  | succ n ih => simp [repeat_calls, ih, Nat.succ_mul, Nat.add_comm]

/-- The SD card gate when the card is found at attempt k (from 0). -/
theorem sd_gate_done (env : Env) (fuel k : Nat)
    (hstart : ∀ i, i < k + 1 → env.sd_startup i = true)
    (hout : ∀ i, i < k → env.sd_isInserted i = false)
    (hin : env.sd_isInserted k = true) (hfuel : k ≤ fuel) :
    (sd_gate env fuel).2 = Ctl.next ∧
    (sd_gate env fuel).1.filter is_storage =
      repeat_calls (k + 1) [Call.sd_startup, Call.sd_isInserted, Call.sd_shutdown] := by
  have hs : env.sd_startup 0 = true := hstart 0 (Nat.succ_pos k)
  cases k with
  | zero =>
    simp [sd_gate, sd_attempt, hs, hin, andThen_snd, filter_andThen, repeat_calls,
      List.filter_cons, is_storage]
  | succ m =>
    have hi : env.sd_isInserted 0 = false := hout 0 (Nat.succ_pos m)
    have e := sd_retry_done env m fuel 1
      (fun i hi => by
        have := hstart (i + 1) (by omega)
        rwa [show i + 1 = 1 + i by omega] at this)
      (fun i hi => by
        have := hout (i + 1) (by omega)
        rwa [show i + 1 = 1 + i by omega] at this)
      (by rwa [show m + 1 = 1 + m by omega] at hin) (by omega)
    have hf := filter_repeat_calls is_storage
      [Call.sd_shutdown, Call.sd_startup, Call.sd_isInserted]
      (by simp [List.filter_cons, is_storage]) (m + 1)
    refine ⟨by simp [sd_gate, sd_attempt, hs, hi, andThen_snd, e], ?_⟩
    rw [← repeat_calls_rotate (m + 1)]
    simp [sd_gate, sd_attempt, hs, hi, filter_andThen, andThen_snd, e, hf, List.filter_cons,
      is_storage]

theorem early_not_storage (c : Call) (h : early_calls c = true) : is_storage c = false := by
  cases c <;> (try cases ‹Msg›) <;> simp_all [early_calls, is_storage]

theorem negotiation_not_storage (c : Call) (h : negotiation_calls c = true) :
    is_storage c = false := by
  cases c <;> (try cases ‹Msg›) <;> simp_all [negotiation_calls, is_storage]

theorem listing_not_mount_or_trigger (c : Call) (h : listing_calls c = true) :
    is_mount_or_trigger c = false := by
  cases c <;> (try cases ‹Msg›) <;> simp_all [listing_calls, is_mount_or_trigger]

theorem tail_not_mount_or_trigger (c : Call) (h : tail_calls c = true) :
    is_mount_or_trigger c = false := by
  cases c <;> (try cases ‹Msg›) <;> simp_all [tail_calls, is_mount_or_trigger]

/-- C8: in a run that gets as far as the SD card, if `startup` succeeds and
`isInserted` reports false in the first k attempts and true in the next one,
then before the one call of `fatMountSimple` the SD driver is called as k+1
rounds of `startup`, `isInserted`, `shutdown` (so k+1 calls of each) and no
event is triggered; after the mount `main_event_fat_loaded` is triggered, at
once and only once, if the mount succeeded, and not at all otherwise. -/
theorem C8_storage_gate_counts (env : Env) (fuel k : Nat)
    (hreach : storage_reached env fuel = true)
    (hstart : ∀ i, i < k + 1 → env.sd_startup i = true)
    (hout : ∀ i, i < k → env.sd_isInserted i = false)
    (hin : env.sd_isInserted k = true) (hfuel : k ≤ fuel) :
    ∃ before after, (main env fuel).trace = before ++ Call.fatMountSimple :: after ∧
      before.filter is_storage =
        repeat_calls (k + 1) [Call.sd_startup, Call.sd_isInserted, Call.sd_shutdown] ∧
      before.count Call.sd_startup = k + 1 ∧ before.count Call.sd_isInserted = k + 1 ∧
      before.count Call.sd_shutdown = k + 1 ∧
      (after.filter is_mount_or_trigger =
        if env.fatMountSimple = true then [Call.Event_Trigger Latch.main_event_fat_loaded]
        else []) ∧
      (env.fatMountSimple = true →
        ∃ rest, after = Call.Event_Trigger Latch.main_event_fat_loaded :: rest) := by
  obtain ⟨hg2, hg1⟩ := sd_gate_done env fuel k hstart hout hin hfuel
  simp only [storage_reached, Bool.and_eq_true, decide_eq_true_eq] at hreach
  obtain ⟨⟨⟨hneg, hn2⟩, hmod⟩, hsearch⟩ := hreach
  obtain ⟨h1, h2, h3⟩ := (negotiation_reached_iff env).1 hneg
  have hrest : run_rest env = ([Call.Module_RunBackground, Call.Search_RunBackground], Ctl.next) := by
    simp [run_rest, hmod, hsearch, Phase.andThen, orFail]
  have hbefore : (hardware_init.1 ++ (init_subsystems env).1 ++ (configure_video env).1
      ++ (await_disc env).1 ++ (negotiate_ios env fuel).1 ++ (run_rest env).1
      ++ (sd_gate env fuel).1).filter is_storage
      = repeat_calls (k + 1) [Call.sd_startup, Call.sd_isInserted, Call.sd_shutdown] := by
    simp only [List.filter_append, filter_hardware_init_nil is_storage early_not_storage,
      filter_init_subsystems_nil is_storage early_not_storage,
      filter_configure_video_nil is_storage early_not_storage,
      filter_await_disc_nil is_storage early_not_storage,
      filter_negotiate_ios_nil is_storage negotiation_not_storage, hrest, hg1]
    simp [List.filter_cons, is_storage]
  have hcount : ∀ c, is_storage c = true →
      (hardware_init.1 ++ (init_subsystems env).1 ++ (configure_video env).1
      ++ (await_disc env).1 ++ (negotiate_ios env fuel).1 ++ (run_rest env).1
      ++ (sd_gate env fuel).1).count c
      = (k + 1) * [Call.sd_startup, Call.sd_isInserted, Call.sd_shutdown].count c := by
    intro c hc
    rw [← List.count_filter hc, hbefore, count_repeat_calls]
  refine ⟨hardware_init.1 ++ (init_subsystems env).1 ++ (configure_video env).1
      ++ (await_disc env).1 ++ (negotiate_ios env fuel).1 ++ (run_rest env).1
      ++ (sd_gate env fuel).1,
    (if env.fatMountSimple = true then
      Call.Event_Trigger Latch.main_event_fat_loaded ::
        ((show_modules env).1 ++
          (if (show_modules env).2 = Ctl.next then (evaluate env fuel).trace
           else if (show_modules env).2 = Ctl.exit_error then
            (exit_error env fuel env.frame_buffer).trace
           else []))
     else Call.fprintf_stderr Msg.could_not_mount ::
        (exit_error env fuel env.frame_buffer).trace), ?_, hbefore, ?_, ?_, ?_, ?_, ?_⟩
  · rw [main_trace]
    simp only [boot, after_negotiation, andThen_fst, andThen_snd, h1, h2, h3, hn2, hg2, hrest,
      if_true, mount_sd, say_fst, say_snd]
    by_cases hm : env.fatMountSimple = true <;> simp [hm]
  · simpa using hcount Call.sd_startup rfl
  · simpa using hcount Call.sd_isInserted rfl
  · simpa using hcount Call.sd_shutdown rfl
  · by_cases hm : env.fatMountSimple = true
    · rw [if_pos hm, if_pos hm]
      simp only [List.filter_cons, List.filter_append,
        apply_ite (List.filter is_mount_or_trigger), exit_error,
        filter_exit_label_nil is_mount_or_trigger tail_not_mount_or_trigger,
        filter_evaluate_nil is_mount_or_trigger tail_not_mount_or_trigger,
        filter_show_modules is_mount_or_trigger listing_not_mount_or_trigger]
      simp [is_mount_or_trigger]
    · rw [if_neg hm, if_neg hm, List.filter_cons]
      simp only [exit_error,
        filter_exit_label_nil is_mount_or_trigger tail_not_mount_or_trigger]
      simp [is_mount_or_trigger]
  · intro hm
    exact ⟨_, by rw [if_pos hm]⟩

/-- The run `env_sd_third`, with k = 2, as an instance of C8. -/
theorem C8_storage_gate_witness :
    storage_reached env_sd_third 5 = true ∧
    (∀ i, i < 2 + 1 → env_sd_third.sd_startup i = true) ∧
    (∀ i, i < 2 → env_sd_third.sd_isInserted i = false) ∧
    env_sd_third.sd_isInserted 2 = true ∧
    ∃ before after, (main env_sd_third 5).trace = before ++ Call.fatMountSimple :: after ∧
      before.filter is_storage =
        repeat_calls (2 + 1) [Call.sd_startup, Call.sd_isInserted, Call.sd_shutdown] ∧
      before.count Call.sd_startup = 2 + 1 ∧ before.count Call.sd_isInserted = 2 + 1 ∧
      before.count Call.sd_shutdown = 2 + 1 ∧
      (after.filter is_mount_or_trigger =
        if env_sd_third.fatMountSimple = true then
          [Call.Event_Trigger Latch.main_event_fat_loaded]
        else []) ∧
      (env_sd_third.fatMountSimple = true →
        ∃ rest, after = Call.Event_Trigger Latch.main_event_fat_loaded :: rest) :=
  ⟨by decide, by decide, by decide, by decide,
    C8_storage_gate_counts env_sd_third 5 2 (by decide) (by decide) (by decide) (by decide)
      (by decide)⟩

theorem log2_536870913 : Nat.log2 536870913 = 29 := by
  apply Nat.le_antisymm
  · exact Nat.le_of_lt_succ ((Nat.log2_lt (by norm_num)).2 (by norm_num))
  · exact (Nat.le_log2 (by norm_num)).2 (by norm_num)

theorem float_of_536870913 : float_of_size 536870913 = 536870912 := by
  simp only [float_of_size, log2_536870913]
  norm_num

theorem scale_of_le (s : ℚ) (m : Nat) (h : s ≤ 512) : scale s m = (s, m) := by
  rw [scale, if_neg (not_lt.2 h)]

theorem scale_of_gt (s : ℚ) (m : Nat) (h : 512 < s) : scale s m = scale (s / 1024) (m + 1) := by
  rw [scale, if_pos h]

theorem Main_PrintSize_3MiB :
    Main_PrintSize (3 * 1048576) = some { precision := 2, sizef := 3, unit := "MiB" } := by
  have hf : float_of_size (3 * 1048576) = 3145728 := by
    simp only [float_of_size]; norm_num
  have hs : scale 3145728 0 = (3, 2) := by
    rw [scale_of_gt _ _ (by norm_num), scale_of_gt _ _ (by norm_num),
      scale_of_le _ _ (by norm_num)]
    norm_num
  simp only [Main_PrintSize, hf, hs]
  norm_num [suffix]

theorem Main_PrintSize_512 :
    Main_PrintSize 512 = some { precision := 0, sizef := 512, unit := "bytes" } := by
  have hf : float_of_size 512 = 512 := by
    simp only [float_of_size]; norm_num
  have hs : scale 512 0 = (512, 0) := scale_of_le _ _ (by norm_num)
  simp only [Main_PrintSize, hf, hs]
  norm_num [suffix]

theorem Main_PrintSize_99_4KiB :
    Main_PrintSize 101786 = some { precision := 1, sizef := 101786 / 1024, unit := "KiB" } := by
  have hf : float_of_size 101786 = 101786 := by
    simp only [float_of_size]; norm_num
  have hs : scale 101786 0 = (101786 / 1024, 1) := by
    rw [scale_of_gt _ _ (by norm_num), scale_of_le _ _ (by norm_num)]
  simp only [Main_PrintSize, hf, hs]
  norm_num [suffix]

theorem Main_PrintSize_536870913 :
    Main_PrintSize 536870913 = some { precision := 0, sizef := 512, unit := "MiB" } := by
  have hs : scale 536870912 0 = (512, 2) := by
    rw [scale_of_gt _ _ (by norm_num), scale_of_gt _ _ (by norm_num),
      scale_of_le _ _ (by norm_num)]
    norm_num
  simp only [Main_PrintSize, float_of_536870913, hs]
  norm_num [suffix]

/-- C10 (as the code has it): for a size below 2^32, with f the size converted
to `float` (the size itself below 2^24, rounded to 24 significant bits
otherwise), `Main_PrintSize` prints f / 1024^m where m is the least number
with f / 1024^m ≤ 512; m is below 4, so the `assert` holds and the unit is
one of bytes, KiB, MiB, GiB; the number of decimals is 0 if m = 0 or the
printed value is at least 100, 1 if it is at least 10, and 2 otherwise.
3 * 1048576 gives 3 MiB with 2 decimals, 512 gives 512 bytes with none,
and 101786 (99.4 KiB) gives KiB with 1 decimal. -/
theorem C10_size_formatting (size : Nat) (h : size < 2 ^ 32) :
    (∃ m, m < 4 ∧
      float_of_size size / 1024 ^ m ≤ 512 ∧
      (∀ j, j < m → 512 < float_of_size size / 1024 ^ j) ∧
      Main_PrintSize size = some
        { precision :=
            if m = 0 then 0
            else if 100 ≤ float_of_size size / 1024 ^ m then 0
            else if 10 ≤ float_of_size size / 1024 ^ m then 1
            else 2
          sizef := float_of_size size / 1024 ^ m
          unit := suffix.getD m "" } ∧
      suffix.getD m "" ∈ ["bytes", "KiB", "MiB", "GiB"]) ∧
    (size < 2 ^ 24 → float_of_size size = (size : ℚ)) ∧
    Main_PrintSize (3 * 1048576) = some { precision := 2, sizef := 3, unit := "MiB" } ∧
    Main_PrintSize 512 = some { precision := 0, sizef := 512, unit := "bytes" } ∧
    Main_PrintSize 101786 = some { precision := 1, sizef := 101786 / 1024, unit := "KiB" } := by
  refine ⟨?_, ?_, Main_PrintSize_3MiB, Main_PrintSize_512, Main_PrintSize_99_4KiB⟩
  · obtain ⟨k, h1, h2, h3⟩ := scale_spec (float_of_size size) 0
    have hle : float_of_size size ≤ 2 ^ 39 := by
      have := float_of_size_le size
      have h' : (size : ℚ) < 4294967296 := by exact_mod_cast h
      norm_num
      linarith
    have hk := scale_magnitude_lt _ hle k h3
    refine ⟨k, hk, h2, h3, ?_, ?_⟩
    · unfold Main_PrintSize
      simp only [h1, Nat.zero_add, hk, if_true]
    · interval_cases k <;> simp [suffix]
  · intro h24
    unfold float_of_size
    rw [if_pos h24]

/-- The size 2^29 + 1 as an instance of C10. -/
theorem C10_size_formatting_witness :
    536870913 < 2 ^ 32 ∧
    ∃ m, m < 4 ∧
      float_of_size 536870913 / 1024 ^ m ≤ 512 ∧
      (∀ j, j < m → 512 < float_of_size 536870913 / 1024 ^ j) ∧
      Main_PrintSize 536870913 = some
        { precision :=
            if m = 0 then 0
            else if 100 ≤ float_of_size 536870913 / 1024 ^ m then 0
            else if 10 ≤ float_of_size 536870913 / 1024 ^ m then 1
            else 2
          sizef := float_of_size 536870913 / 1024 ^ m
          unit := suffix.getD m "" } ∧
      suffix.getD m "" ∈ ["bytes", "KiB", "MiB", "GiB"] :=
  ⟨by norm_num, (C10_size_formatting 536870913 (by norm_num)).1⟩

/-- C10 as stated fails: for the size 2^29 + 1, below 2^32, `Main_PrintSize`
stops at magnitude 2 and prints "512 MiB" although the size divided by
1024^2 is above 512; the conversion to `float` rounded the size to 2^29. -/
theorem C10_counterexample :
    536870913 < 2 ^ 32 ∧
    Main_PrintSize 536870913 = some { precision := 0, sizef := 512, unit := "MiB" } ∧
    suffix.getD 2 "" = "MiB" ∧
    (512 : ℚ) < (536870913 : ℚ) / 1024 ^ 2 :=
  ⟨by norm_num, Main_PrintSize_536870913, rfl, by norm_num⟩

/-! ## The USB HID check -/

theorem early_not_hid_probe (c : Call) (h : early_calls c = true) : is_hid_probe c = false := by
  cases c <;> (try cases ‹Msg›) <;> simp_all [early_calls, is_hid_probe]

theorem middle_not_hid_probe (c : Call) (h : middle_calls c = true) :
    is_hid_probe c = false := by
  cases c <;> (try cases ‹Msg›) <;> simp_all [middle_calls, is_hid_probe]

theorem tail_not_hid_probe (c : Call) (h : tail_calls c = true) : is_hid_probe c = false := by
  cases c <;> (try cases ‹Msg›) <;> simp_all [tail_calls, is_hid_probe]

/-- C9 (as the code has it): for a title code that starts with 'S', 'W', 'B',
with `_apploader_game_ios` 0 and the HID device opened, in a run that gets to
line 123: if the old version query returns the HIDv4 value 0x00040001 the
advisory message is printed and the new query is not made; otherwise (also
when the old query returns 0x00050001) the new query is made and the message
is printed exactly when that query returns non-zero or reports a value other
than 0x00050001.  In every case the device is closed and the apploader is
started next. -/
theorem C9_hid_probe_special_title (env : Env) (fuel : Nat)
    (hreach : negotiation_reached env = true) (h0 : env._apploader_game_ios = 0)
    (hS : env.gamename 0 = 'S') (hW : env.gamename 1 = 'W') (hB : env.gamename 2 = 'B')
    (hfd : 0 < env.hid_fd) :
    (main env fuel).trace.filter is_hid_probe =
      if env.hid4_ver = DEV_USB_HID4_VERSION then
        [Call.IOS_Open, Call.IOS_Ioctl DEV_USB_HID4_IOCTL_GET_VERSION,
          Call.printf Msg.no_hidv5, Call.IOS_Close, Call.Apploader_RunBackground 1]
      else
        [Call.IOS_Open, Call.IOS_Ioctl DEV_USB_HID4_IOCTL_GET_VERSION,
          Call.IOS_Ioctl DEV_USB_HID5_IOCTL_GET_VERSION]
        ++ (if env.hid5_ret ≠ 0 ∨ env.hid5_buffer0 ≠ DEV_USB_HID5_VERSION then
              [Call.printf Msg.no_hidv5]
            else [])
        ++ [Call.IOS_Close, Call.Apploader_RunBackground 1] := by
  rw [filter_main_negotiation is_hid_probe early_not_hid_probe middle_not_hid_probe
    tail_not_hid_probe, if_pos hreach]
  simp only [negotiate_ios, h0, if_true, filter_andThen, say_fst, say_snd, orFail_fst,
    hid_check, hfd, hS, hW, hB, and_self]
  by_cases h4 : env.hid4_ver = DEV_USB_HID4_VERSION
  · simp [h4, List.filter_cons, is_hid_probe]
  · by_cases h5 : env.hid5_ret ≠ 0 ∨ env.hid5_buffer0 ≠ DEV_USB_HID5_VERSION
    · simp only [h4, if_false, if_pos h5]
      simp [List.filter_cons, is_hid_probe]
    · simp only [h4, if_false, if_neg h5]
      simp [List.filter_cons, is_hid_probe]

/-- The run `env_cios_hid4` as an instance of C9. -/
theorem C9_hid_probe_witness :
    negotiation_reached env_cios_hid4 = true ∧ env_cios_hid4._apploader_game_ios = 0 ∧
    env_cios_hid4.gamename 0 = 'S' ∧ env_cios_hid4.gamename 1 = 'W' ∧
    env_cios_hid4.gamename 2 = 'B' ∧ 0 < env_cios_hid4.hid_fd ∧
    env_cios_hid4.hid4_ver = DEV_USB_HID4_VERSION ∧
    (main env_cios_hid4 3).trace.filter is_hid_probe =
      if env_cios_hid4.hid4_ver = DEV_USB_HID4_VERSION then
        [Call.IOS_Open, Call.IOS_Ioctl DEV_USB_HID4_IOCTL_GET_VERSION,
          Call.printf Msg.no_hidv5, Call.IOS_Close, Call.Apploader_RunBackground 1]
      else
        [Call.IOS_Open, Call.IOS_Ioctl DEV_USB_HID4_IOCTL_GET_VERSION,
          Call.IOS_Ioctl DEV_USB_HID5_IOCTL_GET_VERSION]
        ++ (if env_cios_hid4.hid5_ret ≠ 0 ∨ env_cios_hid4.hid5_buffer0 ≠ DEV_USB_HID5_VERSION then
              [Call.printf Msg.no_hidv5]
            else [])
        ++ [Call.IOS_Close, Call.Apploader_RunBackground 1] :=
  ⟨by decide, by decide, by decide, by decide, by decide, by decide, by decide,
    C9_hid_probe_special_title env_cios_hid4 3 (by decide) (by decide) (by decide) (by decide)
      (by decide) (by decide)⟩

/-- C9 as stated fails: for the title "SWBE" with `_apploader_game_ios` 0 and
the HID device opened, the old version query returns 0x00050001 and still the
new query is made and, as it fails, the advisory message is printed. -/
theorem C9_counterexample :
    negotiation_reached env_cios = true ∧ env_cios._apploader_game_ios = 0 ∧
    env_cios.gamename 0 = 'S' ∧ env_cios.gamename 1 = 'W' ∧ env_cios.gamename 2 = 'B' ∧
    0 < env_cios.hid_fd ∧ env_cios.hid4_ver = DEV_USB_HID5_VERSION ∧
    (main env_cios 3).trace.filter is_hid_probe =
      [Call.IOS_Open, Call.IOS_Ioctl DEV_USB_HID4_IOCTL_GET_VERSION,
        Call.IOS_Ioctl DEV_USB_HID5_IOCTL_GET_VERSION, Call.printf Msg.no_hidv5,
        Call.IOS_Close, Call.Apploader_RunBackground 1] := by
  decide

/-! ## The decision at the end -/

/-- C2 fails on the code: in the run `env_entry_null` the module error flag is
clear and `apploader_game_entry_fn` is `NULL` at line 237; `main` reports the
error on `stderr`, waits for RESET, and exits with status 0. -/
theorem C2_entry_missing_exits_with_0 :
    module_phase_reached env_entry_null 3 = true ∧
    env_entry_null.module_has_error = false ∧
    env_entry_null.apploader_game_entry_fn = 0 ∧
    Call.fprintf_stderr Msg.entry_is_null ∈ (main env_entry_null 3).trace ∧
    (main env_entry_null 3).trace.filter is_button_or_exit =
      [Call.SYS_ResetButtonDown false, Call.SYS_ResetButtonDown true,
        Call.SYS_ResetButtonDown false, Call.exit 0] ∧
    (main env_entry_null 3).outcome = Outcome.exited 0 := by
  decide

theorem early_not_launch_or_button (c : Call) (h : early_calls c = true) :
    is_launch_or_button c = false := by
  cases c <;> (try cases ‹Msg›) <;> simp_all [early_calls, is_launch_or_button]

theorem negotiation_not_launch_or_button (c : Call) (h : negotiation_calls c = true) :
    is_launch_or_button c = false := by
  cases c <;> (try cases ‹Msg›) <;> simp_all [negotiation_calls, is_launch_or_button]

theorem middle_not_launch_or_button (c : Call) (h : middle_calls c = true) :
    is_launch_or_button c = false := by
  cases c <;> (try cases ‹Msg›) <;> simp_all [middle_calls, is_launch_or_button]

theorem launch_of_launch_or_button (c : Call) (h : is_launch_or_button c = false) :
    is_launch c = false := by
  cases c <;> simp_all [is_launch, is_launch_or_button]

theorem exit_not_launch (c : Call) (h : exit_calls c = true) : is_launch c = false := by
  cases c <;> simp_all [exit_calls, is_launch]

theorem filter_main_launch (env : Env) (fuel : Nat) :
    (main env fuel).trace.filter is_launch =
      if (init_subsystems env).2 = Ctl.next ∧ (boot env fuel).2 = Ctl.next then
        (evaluate env fuel).trace.filter is_launch
      else [] :=
  filter_main_evaluate is_launch
    (fun c hc => launch_of_launch_or_button c (early_not_launch_or_button c hc))
    (fun c hc => launch_of_launch_or_button c (negotiation_not_launch_or_button c hc))
    (fun c hc => launch_of_launch_or_button c (middle_not_launch_or_button c hc))
    exit_not_launch env fuel

theorem boot_next_of_module_phase (env : Env) (fuel : Nat)
    (h : module_phase_reached env fuel = true) :
    (init_subsystems env).2 = Ctl.next ∧ (boot env fuel).2 = Ctl.next := by
  simp only [module_phase_reached, storage_reached, Bool.and_eq_true, decide_eq_true_eq] at h
  obtain ⟨⟨⟨⟨⟨hneg, hn2⟩, hmod⟩, hsearch⟩, hgate⟩, hmount⟩ := h
  obtain ⟨h1, h2, h3⟩ := (negotiation_reached_iff env).1 hneg
  refine ⟨h1, ?_⟩
  simp [boot, after_negotiation, andThen_snd, h2, h3, hn2, hgate, run_rest, hmod, hsearch,
    mount_sd, hmount, show_modules_next]

/-- C3: when `module_has_error` is set, no run resets the hardware or calls
the game's entry point, and no run exits with status 0 or hands over to the
game.  A run that gets as far as the module list then waits on
`apploader_event_complete` and on `module_event_complete`, unmounts the card
and only then prints "Press RESET to exit" and goes to `exit_error`; once
RESET was pressed and released it exits with status -1. -/
theorem C3_module_error_halts_late (env : Env) (fuel : Nat)
    (herr : env.module_has_error = true) :
    (main env fuel).trace.filter is_launch = [] ∧
    (main env fuel).outcome ≠ Outcome.exited 0 ∧
    (∀ entry, (main env fuel).outcome ≠ Outcome.handoff entry) ∧
    (module_phase_reached env fuel = true →
      main env fuel =
        Run.after (hardware_init.1 ++ (init_subsystems env).1 ++ (boot env fuel).1
            ++ [Call.Event_Wait Latch.apploader_event_complete,
                Call.Event_Wait Latch.module_event_complete, Call.fatUnmount,
                Call.sd_shutdown, Call.printf Msg.press_reset_to_exit])
          (exit_error env fuel env.frame_buffer) ∧
      ∀ p q, reset_pressed_then_released env.SYS_ResetButtonDown p q → q < fuel →
        (main env fuel).outcome = Outcome.exited (-1)) := by
  have hev : evaluate env fuel =
      Run.after [Call.Event_Wait Latch.apploader_event_complete,
          Call.Event_Wait Latch.module_event_complete, Call.fatUnmount,
          Call.sd_shutdown, Call.printf Msg.press_reset_to_exit]
        (exit_error env fuel env.frame_buffer) := by
    simp [evaluate, herr, Run.after]
  have hout : ∀ fb, (exit_error env fuel fb).outcome ≠ Outcome.exited 0 ∧
      ∀ entry, (exit_error env fuel fb).outcome ≠ Outcome.handoff entry := by
    intro fb
    simp only [exit_error, exit_label_outcome]
    split <;> simp
  have hmo : (main env fuel).outcome ≠ Outcome.exited 0 ∧
      ∀ entry, (main env fuel).outcome ≠ Outcome.handoff entry := by
    rw [main_outcome]
    split
    · split
      · rw [hev]
        exact hout env.frame_buffer
      · exact hout env.frame_buffer
      · simp
      · simp
    · exact hout 0
  refine ⟨?_, hmo.1, hmo.2, ?_⟩
  · rw [filter_main_launch, hev]
    simp only [Run.after, exit_error, List.filter_append,
      filter_exit_label_nil_of_exit is_launch exit_not_launch]
    simp [List.filter_cons, is_launch]
  · intro hreach
    obtain ⟨h1, h2⟩ := boot_next_of_module_phase env fuel hreach
    have hm := main_eq_of_next env fuel h1 h2
    rw [hev] at hm
    refine ⟨by rw [hm]; simp [Run.after], ?_⟩
    intro p q hpq hq
    rw [hm]
    simp only [Run.after, exit_error]
    exact exit_label_exits env fuel _ p q (-1) hpq hq

/-- The run `env_module_error` as an instance of C3. -/
theorem C3_module_error_witness :
    env_module_error.module_has_error = true ∧
    module_phase_reached env_module_error 3 = true ∧
    (main env_module_error 3).trace.filter is_launch = [] ∧
    (main env_module_error 3).outcome = Outcome.exited (-1) :=
  have h := C3_module_error_halts_late env_module_error 3 rfl
  ⟨rfl, by decide, h.1,
    (h.2.2.2 (by decide)).2 1 2 (by unfold reset_pressed_then_released; decide) (by decide)⟩

/-- C4: in a run that gets as far as the module list, with `module_has_error`,
`module_has_info` and `search_has_info` all clear and a non-null
`apploader_game_entry_fn`, `main` waits on the two completion events, unmounts
the card, calls `SYS_ResetSystem` and then calls the entry point, once; the
RESET button is not read before that call; and the run ends in the game
unless the game returns. -/
theorem C4_clean_handoff (env : Env) (fuel : Nat)
    (hreach : module_phase_reached env fuel = true)
    (herr : env.module_has_error = false) (hinfo : env.module_has_info = false)
    (hsearch : env.search_has_info = false) (hentry : env.apploader_game_entry_fn ≠ 0) :
    main env fuel =
      Run.after (hardware_init.1 ++ (init_subsystems env).1 ++ (boot env fuel).1
          ++ [Call.Event_Wait Latch.apploader_event_complete,
              Call.Event_Wait Latch.module_event_complete, Call.fatUnmount, Call.sd_shutdown]
          ++ [Call.SYS_ResetSystem, Call.apploader_game_entry_fn env.apploader_game_entry_fn])
        (if env.entry_returns = true then exit_label env fuel 0 env.frame_buffer 0
         else { trace := [], outcome := Outcome.handoff env.apploader_game_entry_fn }) ∧
    (hardware_init.1 ++ (init_subsystems env).1 ++ (boot env fuel).1
        ++ [Call.Event_Wait Latch.apploader_event_complete,
            Call.Event_Wait Latch.module_event_complete, Call.fatUnmount,
            Call.sd_shutdown]).filter is_launch_or_button = [] ∧
    (main env fuel).trace.filter is_launch =
      [Call.SYS_ResetSystem, Call.apploader_game_entry_fn env.apploader_game_entry_fn] ∧
    (env.entry_returns = false →
      (main env fuel).outcome = Outcome.handoff env.apploader_game_entry_fn) := by
  obtain ⟨h1, h2⟩ := boot_next_of_module_phase env fuel hreach
  have hev : evaluate env fuel =
      Run.after [Call.Event_Wait Latch.apploader_event_complete,
          Call.Event_Wait Latch.module_event_complete, Call.fatUnmount, Call.sd_shutdown,
          Call.SYS_ResetSystem, Call.apploader_game_entry_fn env.apploader_game_entry_fn]
        (if env.entry_returns = true then exit_label env fuel 0 env.frame_buffer 0
         else { trace := [], outcome := Outcome.handoff env.apploader_game_entry_fn }) := by
    simp [evaluate, launch, herr, hinfo, hsearch, hentry, Run.after]
  have hm := main_eq_of_next env fuel h1 h2
  rw [hev] at hm
  refine ⟨?_, ?_, ?_, ?_⟩
  · rw [hm]
    simp [Run.after]
  · simp only [List.filter_append,
      filter_hardware_init_nil is_launch_or_button early_not_launch_or_button,
      filter_init_subsystems_nil is_launch_or_button early_not_launch_or_button,
      filter_boot_nil is_launch_or_button early_not_launch_or_button
        negotiation_not_launch_or_button middle_not_launch_or_button]
    simp [List.filter_cons, is_launch_or_button]
  · rw [filter_main_launch, if_pos ⟨h1, h2⟩, hev]
    by_cases hr : env.entry_returns = true
    · simp only [hr, if_true, Run.after, List.filter_append,
        filter_exit_label_nil_of_exit is_launch exit_not_launch]
      simp [List.filter_cons, is_launch]
    · simp only [hr, if_false, Run.after, List.filter_append]
      simp [List.filter_cons, is_launch]
  · intro hr
    rw [hm]
    simp [Run.after, hr]

/-- The run `env_cios` as an instance of C4. -/
theorem C4_clean_handoff_witness :
    module_phase_reached env_cios 3 = true ∧ env_cios.module_has_error = false ∧
    env_cios.module_has_info = false ∧ env_cios.search_has_info = false ∧
    env_cios.apploader_game_entry_fn ≠ 0 ∧
    (main env_cios 3).trace.filter is_launch =
      [Call.SYS_ResetSystem, Call.apploader_game_entry_fn env_cios.apploader_game_entry_fn] ∧
    (main env_cios 3).outcome = Outcome.handoff env_cios.apploader_game_entry_fn :=
  have h := C4_clean_handoff env_cios 3 (by decide) rfl rfl rfl (by decide)
  ⟨by decide, rfl, rfl, rfl, by decide, h.2.2.1, h.2.2.2 rfl⟩
end BrainSlug
